import Mathlib

/-!  Verification of the TSIP GNSS driver (src/drivers/driver_tsip.c).

This file shallowly embeds the parts of the driver that the verified
properties talk about: the byte-buffer getters, the TSIPv1 (enveloped)
dispatcher `tsipv1_parse` with its four envelope gates, the legacy
dispatcher `tsip_parse_input` with its per-ID length guards, the field
decoders `decode_x47`, `decode_x5d`, `decode_x6c`, `decode_x8f_20`, the
satellite remap functions `tsip_gnssid` / `tsipv1_svtype`, the query
scheduler `tsipv1_query` and the outbound frame writer `tsip_write1`.

Machine integers are embedded as `Nat`/`Int` with explicit truncation;
IEEE-754 single floats read by `getbef32` are embedded exactly (finite
values as rationals, plus infinities and NaN); C doubles that only ever
hold exact scaled integers are embedded as rationals.  Decoders that no
theorem depends on are abstracted as an explicit decoder environment
passed to the dispatchers; every guard, state update and mask update on
the dispatch paths themselves is embedded from the source.
-/

namespace Tsip

/-! ### Byte-buffer primitives (the bits.h getters used by the driver)

Buffers are lists of bytes.  Out-of-range reads yield 0, matching the
zero-filled `buf` that `tsip_parse_input` passes to every decoder. -/

/-- getub: unsigned byte at offset `i`. -/
def getub (buf : List Nat) (i : Nat) : Nat := buf.getD i 0 % 256

/-- getbeu16: big-endian unsigned 16-bit value at offset `i`. -/
def getbeu16 (buf : List Nat) (i : Nat) : Nat := getub buf i * 256 + getub buf (i + 1)

/-- getbeu32: big-endian unsigned 32-bit value at offset `i`. -/
def getbeu32 (buf : List Nat) (i : Nat) : Nat :=
  getbeu16 buf i * 65536 + getbeu16 buf (i + 2)

/-- getbes16: big-endian signed 16-bit value at offset `i`. -/
def getbes16 (buf : List Nat) (i : Nat) : Int :=
  let v := getbeu16 buf i
  if v < 0x8000 then (v : Int) else (v : Int) - 0x10000

/-- getbes32: big-endian signed 32-bit value at offset `i`. -/
def getbes32 (buf : List Nat) (i : Nat) : Int :=
  let v := getbeu32 buf i
  if v < 0x80000000 then (v : Int) else (v : Int) - 0x100000000

/-- getsb: signed byte at offset `i`. -/
def getsb (buf : List Nat) (i : Nat) : Int :=
  let v := getub buf i
  if v < 0x80 then (v : Int) else (v : Int) - 0x100

/-- IEEE-754 single-precision value as decoded by getbef32; finite values
are represented exactly as rationals. -/
inductive F32 where
  | finite (q : ℚ)
  | pinf
  | ninf
  | nan
  deriving DecidableEq, Repr

/-- getbef32: big-endian IEEE-754 single at offset `i`, decoded exactly.
For a biased exponent `ex` in 1..254 the magnitude is
(2^23 + frac) * 2^ex / 2^150 = (1 + frac/2^23) * 2^(ex-127); the `ex = 0`
(subnormal) magnitude frac * 2^1 / 2^150 = (frac/2^23) * 2^(-126). -/
def getbef32 (buf : List Nat) (i : Nat) : F32 :=
  let bits := getbeu32 buf i
  let sgn := bits / 2 ^ 31
  let ex := bits / 2 ^ 23 % 256
  let frac := bits % 2 ^ 23
  if ex = 255 then
    if frac = 0 then (if sgn = 1 then F32.ninf else F32.pinf) else F32.nan
  else
    let mag : ℚ := (((if ex = 0 then frac else 2 ^ 23 + frac) * 2 ^ max ex 1 : Nat) : ℚ) / 2 ^ 150
    F32.finite (if sgn = 1 then -mag else mag)

/-- C comparison `0.0 > x` on a decoded float; false for NaN. -/
def F32.isLtZero : F32 → Bool
  | .finite q => decide (q < 0)
  | .ninf => true
  | _ => false

/-- C comparison `0.0 < x` on a decoded float; false for NaN. -/
def F32.isGtZero : F32 → Bool
  | .finite q => decide (0 < q)
  | .pinf => true
  | _ => false

/-- C macro IN(lo, x, hi): `lo <= x && x <= hi`; false when x is an
infinity or NaN, so sentinel and garbage values are rejected. -/
def IN (lo : ℚ) (x : F32) (hi : ℚ) : Bool :=
  match x with
  | .finite q => decide (lo ≤ q) && decide (q ≤ hi)
  | _ => false

/-- Multiplication of a decoded float by a positive rational constant
(used for the RAD_2_DEG elevation/azimuth scaling in decode_x5d). -/
def F32.scale (c : ℚ) : F32 → F32
  | .finite q => .finite (q * c)
  | .pinf => .pinf
  | .ninf => .ninf
  | .nan => .nan

/-! ### Constants -/

/-- SEMI_2_DEG (driver_tsip.c:57): `180.0 / 2147483647L`.  The divisor
in the source is 2147483647 = 2^31 - 1, although the adjacent comment
says "2^-31 semicircle to deg". -/
def SEMI_2_DEG : ℚ := 180 / 2147483647

/-- Modelled from the spec: RAD_2_DEG is a radians-to-degrees double
constant declared in include/gps.h, which is not under src/.  Its exact
value is irrelevant to every theorem in this file. -/
def RAD_2_DEG : ℚ := 57.29577951308232

/-- TSIP_CHANNELS (driver_tsip.c:37): size of the skyview channel table. -/
def TSIP_CHANNELS : Nat := 64

/-- Modelled from the spec: MAXCHANNELS bounds the per-device satellite
arrays; it is declared in include/gps.h, which is not under src/ (the
spec's SkyviewChannel[N] table size), and is 140 in the library header. -/
def MAXCHANNELS : Nat := 140

/-- Modelled from the spec: the "which navigation fields changed" bitmask
(§6 of the spec; gps_mask_t of include/gpsd.h, not under src/).  Only the
distinctness of the bits matters to the theorems below. -/
def TIME_SET : Nat := 2 ^ 2

/-- Modelled from the spec: NTP time bit of the change mask. -/
def NTPTIME_IS : Nat := 2 ^ 3

/-- Modelled from the spec: latitude/longitude bit of the change mask. -/
def LATLON_SET : Nat := 2 ^ 4

/-- Modelled from the spec: altitude bit of the change mask. -/
def ALTITUDE_SET : Nat := 2 ^ 5

/-- Modelled from the spec: fix-status bit of the change mask. -/
def STATUS_SET : Nat := 2 ^ 6

/-- Modelled from the spec: fix-mode bit of the change mask. -/
def MODE_SET : Nat := 2 ^ 7

/-- Modelled from the spec: DOP bit of the change mask. -/
def DOP_SET : Nat := 2 ^ 8

/-- Modelled from the spec: satellites-in-view bit of the change mask. -/
def SATELLITE_SET : Nat := 2 ^ 9

/-- Modelled from the spec: satellites-used bit of the change mask. -/
def USED_IS : Nat := 2 ^ 10

/-- Modelled from the spec: NED-velocity bit of the change mask. -/
def VNED_SET : Nat := 2 ^ 11

/-- Modelled from the spec: epoch-clear bit of the change mask. -/
def CLEAR_IS : Nat := 2 ^ 12

/-- Modelled from the spec: fix-status code "unknown" (include/gps.h). -/
def STATUS_UNK : Nat := 0

/-- Modelled from the spec: fix-status code "GPS fix". -/
def STATUS_GPS : Nat := 1

/-- Modelled from the spec: fix-status code "differential GPS fix". -/
def STATUS_DGPS : Nat := 2

/-- Modelled from the spec: fix-status code "dead reckoning". -/
def STATUS_DR : Nat := 3

/-- Modelled from the spec: fix-status code "surveyed-in time fix". -/
def STATUS_TIME : Nat := 4

/-- Modelled from the spec: fix-mode code "no fix" (include/gps.h). -/
def MODE_NO_FIX : Nat := 1

/-- Modelled from the spec: fix-mode code "2D fix". -/
def MODE_2D : Nat := 2

/-- Modelled from the spec: fix-mode code "3D fix". -/
def MODE_3D : Nat := 3

/-- Modelled from the spec: GNSS id for GPS (include/gps.h, u-blox
numbering); only distinctness of the GNSSID values matters below. -/
def GNSSID_GPS : Nat := 0

/-- Modelled from the spec: GNSS id for SBAS. -/
def GNSSID_SBAS : Nat := 1

/-- Modelled from the spec: GNSS id for Galileo. -/
def GNSSID_GAL : Nat := 2

/-- Modelled from the spec: GNSS id for BeiDou. -/
def GNSSID_BD : Nat := 3

/-- Modelled from the spec: GNSS id for QZSS. -/
def GNSSID_QZSS : Nat := 5

/-- Modelled from the spec: GNSS id for GLONASS. -/
def GNSSID_GLO : Nat := 6

/-- Modelled from the spec: GNSS id for IRNSS/NavIC. -/
def GNSSID_IRNSS : Nat := 7

/-- Modelled from the spec: satellite health code "healthy" (include/gps.h). -/
def SAT_HEALTH_OK : Nat := 1

/-- Modelled from the spec: satellite health code "unhealthy". -/
def SAT_HEALTH_BAD : Nat := 2

/-! ### Satellite remap functions -/

/-- Truncation of a C expression assigned to an `unsigned char`. -/
def byteOf (x : Int) : Nat := (x % 256).toNat

/-- tsip_gnssid (driver_tsip.c:653): legacy-family SV type and PRN to
(gnssid, svid).  The PRN-band chain for SV type 0 is kept in source
order (the Galileo band 97..133 is tested before the Copernicus SBAS
band 120..138, as in the C `else if` chain). -/
def tsip_gnssid (svtype : Nat) (prn : Int) : Nat × Nat :=
  match svtype with
  | 0 =>
    if 0 < prn ∧ prn < 33 then (GNSSID_GPS, byteOf prn)
    else if 32 < prn ∧ prn < 55 then (GNSSID_SBAS, byteOf (prn + 87))
    else if 64 < prn ∧ prn < 97 then (GNSSID_GLO, byteOf (prn - 64))
    else if 96 < prn ∧ prn < 134 then (GNSSID_GAL, byteOf (prn - 96))
    else if 119 < prn ∧ prn < 139 then (GNSSID_SBAS, byteOf (prn + 87))
    else if prn = 183 then (GNSSID_QZSS, 1)
    else if 192 ≤ prn ∧ prn ≤ 193 then (GNSSID_QZSS, byteOf (prn - 190))
    else if prn = 200 then (GNSSID_QZSS, 4)
    else if 200 < prn ∧ prn < 238 then (GNSSID_BD, byteOf (prn - 200))
    else (0, 0)
  | 1 => (GNSSID_GLO, byteOf (prn - 64))
  | 2 => (GNSSID_BD, byteOf (prn - 200))
  | 3 => (GNSSID_GAL, byteOf (prn - 96))
  | 5 =>
    (GNSSID_QZSS,
      if prn = 183 then 1
      else if prn = 192 then 2
      else if prn = 193 then 3
      else if prn = 200 then 4
      else byteOf prn)
  | _ => (0, 0)

/-- tsipv1_svtype (driver_tsip.c:1185): enveloped-family SV type to
(gnssid, sigid); (0xff, 0xff) on a reserved or unknown SV type. -/
def tsipv1_svtype (svtype : Nat) : Nat × Nat :=
  match svtype with
  | 1 => (GNSSID_GPS, 0)
  | 2 => (GNSSID_GPS, 3)
  | 3 => (GNSSID_GPS, 6)
  | 5 => (GNSSID_GLO, 0)
  | 6 => (GNSSID_GLO, 2)
  | 9 => (GNSSID_SBAS, 0)
  | 13 => (GNSSID_BD, 0)
  | 14 => (GNSSID_BD, 2)
  | 15 => (GNSSID_BD, 3)
  | 17 => (GNSSID_GAL, 0)
  | 18 => (GNSSID_GAL, 3)
  | 19 => (GNSSID_GAL, 5)
  | 20 => (GNSSID_GAL, 8)
  | 22 => (GNSSID_QZSS, 0)
  | 23 => (GNSSID_QZSS, 4)
  | 24 => (GNSSID_QZSS, 8)
  | 26 => (GNSSID_IRNSS, 8)
  | _ => (0xff, 0xff)

/-! ### Wire codec -/

/-- tsip1_checksum (driver_tsip.c:749): XOR of the bytes of `l` (the C
function is always applied to the first `len` bytes of its buffer; the
caller passes that prefix here). -/
def tsip1_checksum (l : List Nat) : Nat := l.foldl (· ^^^ ·) 0

/-- tsip_write1 (driver_tsip.c:769).  `msgbufLen` is sizeof(session->msgbuf);
`payload = none` is a NULL buffer; `writeOk` is whether gpsd_write accepts
the whole frame.  Returns the C return value paired with the framed bytes
handed to gpsd_write (`none` when nothing is written): leading DLE,
payload with every embedded DLE doubled, trailing DLE ETX. -/
def tsip_write1 (readonly : Bool) (msgbufLen : Nat) (payload : Option (List Nat))
    (writeOk : Bool) : Int × Option (List Nat) :=
  if readonly then (0, none)
  else
    match payload with
    | none => (-1, none)
    | some buf =>
      if buf.length = 0 ∨ msgbufLen / 2 < buf.length then (-1, none)
      else
        let stuffed := (buf.map (fun b => if b = 0x10 then [0x10, 0x10] else [b])).flatten
        let frame := 0x10 :: (stuffed ++ [0x10, 0x03])
        (if writeOk then 0 else -1, some frame)

/-! ### Session state

One record collects the session fields written by the embedded code:
the navigation fix under construction (`session->newdata`), DOP values,
the skyview channel table, the driver scratch state (`driver.tsip`), the
context fields, and the TSIPv1 round-robin query counter.  Fields of
`struct gps_device_t` that no embedded function reads or writes are not
represented. -/

/-- Entry of the skyview channel table (satellite_t fields written by
this driver). -/
structure SkyChan where
  PRN : Nat
  ss : F32
  elevation : F32
  azimuth : F32
  used : Bool
  gnssid : Nat
  svid : Nat
  health : Nat
  deriving DecidableEq, Repr

/-- Zeroed skyview channel. -/
def SkyChan.zero : SkyChan :=
  ⟨0, .finite 0, .finite 0, .finite 0, false, 0, 0, 0⟩

instance : Inhabited SkyChan := ⟨SkyChan.zero⟩

/-- Session state (the subset of `struct gps_device_t` the embedded code
touches).  `time` and the `last_*` request timestamps are seconds;
`last_tow` is a (sec, nsec) timespec. -/
structure Session where
  queue : Nat
  passive : Bool
  status : Nat
  mode : Nat
  latitude : ℚ
  longitude : ℚ
  altHAE : ℚ
  velN : ℚ
  velE : ℚ
  velD : ℚ
  time : Nat × Nat
  satellites_used : Int
  satellites_visible : Nat
  dop_pdop : ℚ
  dop_hdop : ℚ
  dop_vdop : ℚ
  dop_tdop : ℚ
  skyview : List SkyChan
  sats_used : List Int
  last_tow : Nat × Nat
  last_chan_seen : Nat
  leap_seconds : Nat
  valid_leap : Bool
  gps_week : Nat
  superpkt : Nat
  lastfix_sec : Int
  oldfix_sec : Int
  last_41 : Int
  last_46 : Int
  last_48 : Int
  last_5c : Int
  last_6d : Int
  req_compact : Int
  deriving DecidableEq, Repr

/-- MSTOTS (timespec.h): milliseconds to a (sec, nsec) timespec. -/
def MSTOTS (ms : Nat) : Nat × Nat := (ms / 1000, ms % 1000 * 1000000)

/-- Modelled from the spec: gpsd_gpstime_resolv (gpsd core, not under
src/) resolves a (week, time-of-week) pair to absolute time ("Resolves a
(week-number, time-of-week) pair to absolute time", spec 4.4); modelled
as GPS-epoch seconds plus whole weeks plus the time of week.  Every
theorem below depends only on which week value is passed in. -/
def gpsd_gpstime_resolv (week : Nat) (tow : Nat × Nat) : Nat × Nat :=
  (315964800 + week * 604800 + tow.1, tow.2)

/-- Modelled from the spec: gpsd_zero_satellites (gpsd core, not under
src/) clears the skyview table and the visible-satellite count (the
spec's SkyviewChannel table reset before a signal-level refill). -/
def gpsd_zero_satellites (st : Session) : Session :=
  { st with skyview := List.replicate st.skyview.length SkyChan.zero,
            satellites_visible := 0 }

/-! ### Field decoders embedded concretely -/

/-- Conversion of a decoded float known to be finite (guarded by `IN`). -/
def F32.toQ : F32 → ℚ
  | .finite q => q
  | _ => 0

/-- Inner loop of decode_x47 (driver_tsip.c:1731-1744): store an SNR into
the first skyview channel whose PRN matches, if any. -/
def x47SetSNR (sky : List SkyChan) (prn : Nat) (snr : F32) : List SkyChan :=
  match (List.range TSIP_CHANNELS).find? (fun j => (sky.getD j default).PRN = prn) with
  | some j => sky.set j { sky.getD j default with ss := snr }
  | none => sky

/-- decode_x47 (driver_tsip.c:1712): Signal Levels for all Satellites.
Note that the source zeroes the satellite table *before* its
content-dependent length check `(5 * count + 1) > len`.
Returns (state, mask, bad_len). -/
def decode_x47 (st : Session) (buf : List Nat) (len : Nat) : Session × Nat × Nat :=
  let count := getub buf 0
  let st := gpsd_zero_satellites st
  if len < 5 * count + 1 then (st, 0, 5 * count + 1)
  else
    let st := { st with skyview := (List.range count).foldl (fun sky i =>
        let prn := getub buf (5 * i + 1)
        let snr0 := getbef32 buf (5 * i + 2)
        let snr := if snr0.isLtZero then F32.finite 0 else snr0
        x47SetSNR sky prn snr) st.skyview }
    (st, SATELLITE_SET, 0)

/-- decode_x5d (driver_tsip.c:2191): GNSS Satellite Tracking Status.
Channel index 0 publishes the previous burst's last channel index as the
visible count; channels below TSIP_CHANNELS refill the table; on
`i + 1 >= satellites_visible` the SATELLITE_SET signal is raised and the
visible count becomes `i + 1`.  (The source also resolves a skyview
timestamp, lines 2238-2247; no claim references it and it is not part of
the modelled state.)  Returns (state, mask). -/
def decode_x5d (st : Session) (buf : List Nat) : Session × Nat :=
  let u1 := getub buf 0                            -- PRN
  let i := getub buf 1                             -- chan
  let u4 := getub buf 3                            -- used?
  let f1 := getbef32 buf 4                         -- SNR
  let d1 := (getbef32 buf 12).scale RAD_2_DEG      -- Elevation
  let d2 := (getbef32 buf 16).scale RAD_2_DEG      -- Azimuth
  let u7 := getub buf 22                           -- bad data flag
  let u10 := getub buf 25                          -- SV Type
  let st := { st with satellites_visible :=
                if i = 0 then st.last_chan_seen else st.satellites_visible }
  let st := { st with last_chan_seen := i }
  if i < TSIP_CHANNELS then
    let gs := tsip_gnssid u10 (u1 : Int)
    let chan : SkyChan :=
      { PRN := u1, ss := f1, elevation := d1, azimuth := d2,
        used := u4 != 0, gnssid := gs.1, svid := gs.2,
        health := if u7 = 0 then SAT_HEALTH_OK else SAT_HEALTH_BAD }
    let st := { st with skyview := st.skyview.set i chan }
    ({ st with satellites_visible :=
         if st.satellites_visible ≤ i + 1 then i + 1 else st.satellites_visible },
     if st.satellites_visible ≤ i + 1 then SATELLITE_SET else 0)
  else (st, 0)

/-- decode_x6c (driver_tsip.c:2272): Satellite Selection List.  The DOP
stores and their DOP_SET mask bits happen *before* the content-dependent
length check `(18 + count) > len`.  Returns (state, mask, bad_len). -/
def decode_x6c (st : Session) (buf : List Nat) (len : Nat) : Session × Nat × Nat :=
  let fixdm := getub buf 0
  let pdop := getbef32 buf 1
  let hdop := getbef32 buf 5
  let vdop := getbef32 buf 9
  let tdop := getbef32 buf 13
  let (st, mask) :=
    if IN 0.01 pdop 89.99 then ({ st with dop_pdop := pdop.toQ }, DOP_SET) else (st, 0)
  let (st, mask) :=
    if IN 0.01 hdop 89.99 then ({ st with dop_hdop := hdop.toQ }, mask ||| DOP_SET) else (st, mask)
  let (st, mask) :=
    if IN 0.01 vdop 89.99 then ({ st with dop_vdop := vdop.toQ }, mask ||| DOP_SET) else (st, mask)
  let (st, mask) :=
    if IN 0.01 tdop 89.99 then ({ st with dop_tdop := tdop.toQ }, mask ||| DOP_SET) else (st, mask)
  let count := getub buf 17
  if len < 18 + count then (st, mask, 18 + count)
  else
    let (status, mode) :=
      match fixdm &&& 7 with
      | 1 => (STATUS_TIME, MODE_3D)
      | 5 => (STATUS_TIME, MODE_3D)
      | 3 => (st.status, MODE_2D)
      | 4 => (st.status, MODE_3D)
      | 6 => (STATUS_DGPS, MODE_3D)
      | _ => (st.status, MODE_NO_FIX)
    let status := if fixdm &&& 8 = 8 then (if count ≠ 0 then STATUS_TIME else STATUS_DR) else status
    let st := { st with status := status, mode := mode }
    let mask := if STATUS_UNK < status then mask ||| STATUS_SET else mask
    let mask := mask ||| MODE_SET
    let st := { st with satellites_used := (count : Int),
                        sats_used := (List.range count).foldl
                          (fun l i => l.set i (getsb buf (18 + i)))
                          (List.replicate st.sats_used.length 0) }
    (st, mask ||| USED_IS, 0)

/-- Week-rollover correction in decode_x8f_20 (driver_tsip.c:2746-2754):
inside the `10 < ls` branch, a newly learned leap-second count above 17
with a week below 1930 adds 1024 to the week, and adds 1024 once more if
the week is still below 1930 (leap second 18 was added in GPS week 1930). -/
def x8f20_week_adjust (ls week : Nat) : Nat :=
  if 10 < ls then
    if 17 < ls ∧ week < 1930 then
      (if week + 1024 < 1930 then week + 1024 + 1024 else week + 1024)
    else week
  else week

/-- PRN loop of decode_x8f_20 (driver_tsip.c:2775-2789): store the low
five bits of each used-satellite byte, stopping early when the packet is
too short for entry `i`. -/
def x8f20SatsLoop (buf : List Nat) (plen numSV : Nat) (i : Nat) (sats : List Int) : List Int :=
  if i < numSV then
    if plen < 33 + i * 2 then sats
    else x8f20SatsLoop buf plen numSV (i + 1)
      (sats.set i (((getub buf (32 + i * 2)) &&& 0x1f : Nat) : Int))
  else sats
termination_by numSV - i

/-- decode_x8f_20 (driver_tsip.c:2665): Last Fix with Extra Information.
Embedded in full except for diagnostics: velocity scaling and the ENU to
NED sign flip, semicircle angles, altitude in mm, fix flags, satellite
count, leap seconds with the week-rollover correction, time resolution,
epoch-clear detection against the stored time-of-week, and the
used-satellite list with its `MAXCHANNELS < numSV` guard (which returns
an empty mask after the state was already updated, as in the source).
The first over-range test compares the sign-extended north velocity with
`(int)0x8000` = 32768, exactly as the source does, so it always passes;
the other two compare with `(int16_t)0x8000` = -32768.  The source's
conditional assignments are embedded as conditional field values.
Returns (state, mask). -/
def decode_x8f_20 (st : Session) (buf : List Nat) (plen : Nat) : Session × Nat :=
  let s1 := getbes16 buf 2                -- east velocity
  let s2 := getbes16 buf 4                -- north velocity
  let s3 := getbes16 buf 6                -- up velocity
  let tow := getbeu32 buf 8               -- time in ms
  let lat := getbes32 buf 12              -- latitude
  let lon := getbeu32 buf 16              -- longitude
  let alt := getbes32 buf 20              -- altitude
  let u1 := getub buf 24                  -- velocity scaling
  let fflags := getub buf 27              -- fix flags
  let numSV := getub buf 28               -- num svs
  let ls := getub buf 29                  -- utc offset (leap seconds)
  let week := getbeu16 buf 30             -- gps week
  let d4 : ℚ := if u1 &&& 0x01 ≠ 0 then 0.02 else 0.005
  let st := { st with
    velN := if (32768 : Int) ≠ s2 then s2 * d4 else st.velN,
    velE := if (-32768 : Int) ≠ s1 then s1 * d4 else st.velE,
    velD := if (-32768 : Int) ≠ s3 then -(s3 * d4) else st.velD }
  let lonDeg : ℚ := (lon : ℚ) * SEMI_2_DEG
  let st := { st with latitude := (lat : ℚ) * SEMI_2_DEG,
                      longitude := if 180 < lonDeg then lonDeg - 360 else lonDeg,
                      altHAE := (alt : ℚ) * (1 / 1000) }
  let mask := ALTITUDE_SET
  let st := { st with
    status := if fflags &&& 0x01 = 0 then
                (if fflags &&& 0x02 ≠ 0 then STATUS_DGPS else STATUS_GPS)
              else STATUS_UNK,
    mode := if fflags &&& 0x01 = 0 then
              (if fflags &&& 0x04 ≠ 0 then MODE_2D else MODE_3D)
            else MODE_NO_FIX,
    satellites_used := (numSV : Int) }
  let st := { st with
    leap_seconds := if 10 < ls then ls else st.leap_seconds,
    valid_leap := if 10 < ls then true else st.valid_leap }
  let week := if 10 < ls then x8f20_week_adjust ls week else week
  let ts_tow := MSTOTS tow
  let st := { st with time := gpsd_gpstime_resolv week ts_tow }
  let mask := mask ||| TIME_SET ||| NTPTIME_IS ||| LATLON_SET |||
              STATUS_SET ||| MODE_SET ||| VNED_SET
  let mask := if ts_tow ≠ st.last_tow then mask ||| CLEAR_IS else mask
  let st := { st with last_tow := if ts_tow ≠ st.last_tow then ts_tow else st.last_tow }
  let st := { st with sats_used := List.replicate st.sats_used.length 0 }
  ({ st with sats_used :=
       if MAXCHANNELS < numSV then st.sats_used
       else x8f20SatsLoop buf plen numSV 0 st.sats_used },
   if MAXCHANNELS < numSV then 0 else mask)

/-! ### Query scheduler (TSIPv1 round robin) -/

/-- Append the XOR checksum byte to a frame header, as each branch of
`tsipv1_query` does with `snd_buf[n] = tsip1_checksum(snd_buf, n)`. -/
def withChk (hdr : List Nat) : List Nat := hdr ++ [tsip1_checksum hdr]

/-- Probe frame sent by branch `n` = queue / 4 of the switch in
tsipv1_query (driver_tsip.c:1079-1174); branch 7 depends on the passive
flag.  Frame layout: id, sub-id, big-endian length, mode, optional
payload, XOR checksum. -/
def probeFrame (n : Nat) (passive : Bool) : Option (List Nat) :=
  match n with
  | 1 => some (withChk [0x90, 0x00, 0x00, 0x02, 0x00])
  | 2 => some (withChk [0x90, 0x01, 0x00, 0x02, 0x00])
  | 3 => some (withChk [0x91, 0x00, 0x00, 0x03, 0x00, 0x00])
  | 4 => some (withChk [0x91, 0x01, 0x00, 0x02, 0x00])
  | 5 => some (withChk [0x91, 0x03, 0x00, 0x02, 0x00])
  | 6 => some (withChk [0x91, 0x04, 0x00, 0x02, 0x00])
  | 7 =>
    if passive then some (withChk [0x91, 0x05, 0x00, 0x03, 0x00, 0xff])
    else some (withChk ([0x91, 0x05, 0x00, 0x13, 0x01, 0xff, 0x00, 0x0a, 0xaa, 0xaa]
                        ++ List.replicate 12 0))
  | 8 => some (withChk [0x93, 0x00, 0x00, 0x02, 0x00])
  | _ => none

/-- tsipv1_query (driver_tsip.c:1066): advance the round-robin counter
(wrapping via `&= 0x0ffff`) and, once every four packets, emit the next
scheduled probe frame.  Returns the new session and the payload handed
to tsip_write1 (none when no probe is due). -/
def tsipv1_query (st : Session) : Session × Option (List Nat) :=
  let q := (st.queue + 1) &&& 0xffff
  ({ st with queue := q }, if q % 4 ≠ 0 then none else probeFrame (q / 4) st.passive)

/-! ### TSIPv1 (enveloped) dispatcher -/

/-- Decoder environment: the field decoders no theorem depends on are
abstracted as one function from (dispatch key, payload, payload length,
receive time, state) to (state, mask, bad_len).  Keys are the plain
packet id for top-level legacy decoders and `id * 256 + sub_id` for
superpacket and TSIPv1 sub-decoders.  All dispatcher-level theorems hold
for every environment. -/
def DecEnv := Nat → List Nat → Nat → Int → Session → Session × Nat × Nat

/-- Shape of one case of the tsipv1_parse switch: a minimum-declared-
length guard before a decoder, the exact-length guard of 0xa0-00 (length
3 or 8), or a log-only case (0xd0-40, 0xd0-41, the send-only pairs
0x92-00 and 0xa4-00, and unknown pairs). -/
inductive V1Case where
  | checked (m : Nat)
  | exactLen38
  | logOnly
  deriving DecidableEq, Repr

/-- Case selected by the switch of tsipv1_parse on the (id, sub-id) pair
(driver_tsip.c:4895-5094), with each pair's minimum declared length. -/
def tsipv1_case (key : Nat) : V1Case :=
  if key = 0x9000 then .checked 11
  else if key = 0x9001 then .checked 11
  else if key = 0x9100 then .checked 17
  else if key = 0x9101 then .checked 28
  else if key = 0x9102 then .checked 8
  else if key = 0x9103 then .checked 19
  else if key = 0x9104 then .checked 11
  else if key = 0x9105 then .checked 19
  else if key = 0x9201 then .checked 3
  else if key = 0x9300 then .checked 78
  else if key = 0xa000 then .exactLen38
  else if key = 0xa100 then .checked 32
  else if key = 0xa102 then .checked 17
  else if key = 0xa111 then .checked 52
  else if key = 0xa200 then .checked 25
  else if key = 0xa300 then .checked 18
  else if key = 0xa311 then .checked 29
  else if key = 0xa321 then .checked 5
  else if key = 0xd000 then .checked 3
  else if key = 0xd001 then .checked 4
  else .logOnly

/-- Switch of tsipv1_parse on the (id, sub-id) pair
(driver_tsip.c:4895-5094): the per-pair length guard selected by
`tsipv1_case`, then the pair's decoder (from the environment); log-only
cases change nothing.  Returns (state, mask, bad_len flag). -/
def tsipv1_dispatch (dec : DecEnv) (st : Session) (id : Nat) (buf : List Nat) :
    Session × Nat × Bool :=
  let sub_id := getub buf 0
  let length := getbeu16 buf 1
  let key := id * 256 + sub_id
  match tsipv1_case key with
  | .checked m =>
    if length < m then (st, 0, true)
    else
      let r := dec key buf buf.length 0 st
      (r.1, r.2.1, false)
  | .exactLen38 =>
    if length ≠ 3 ∧ length ≠ 8 then (st, 0, true)
    else
      let r := dec key buf buf.length 0 st
      (r.1, r.2.1, false)
  | .logOnly => (st, 0, false)

/-- Result of the TSIPv1 dispatcher: final session, change mask, whether
a per-pair length failure was reported, and the probe frame emitted by
the query scheduler (none when no probe was due or an envelope gate
failed). -/
structure V1Res where
  sess : Session
  mask : Nat
  badLen : Bool
  emit : Option (List Nat)
  deriving DecidableEq, Repr

/-- tsipv1_parse (driver_tsip.c:4841): the four envelope gates, in
source order — (1) at least 4 bytes; (2) declared length + 3 equals the
buffer length; (3) XOR of the outer id byte and bytes 0..length+2 of the
buffer is zero; (4) mode byte equals 2 — each failure returning an empty
mask before the query scheduler runs; then the per-pair dispatch, the
`bad_len` mask zeroing, and the round-robin query advance. -/
def tsipv1_parse (dec : DecEnv) (st : Session) (id : Nat) (buf : List Nat) : V1Res :=
  if buf.length < 4 then ⟨st, 0, false, none⟩
  else
    let length := getbeu16 buf 1
    let mode := getub buf 3
    if length + 3 ≠ buf.length then ⟨st, 0, false, none⟩
    else
      let chksum := (buf.take (length + 3)).foldl (· ^^^ ·) id
      if chksum ≠ 0 then ⟨st, 0, false, none⟩
      else if mode ≠ 2 then ⟨st, 0, false, none⟩
      else
        let (st, mask, bad) := tsipv1_dispatch dec st id buf
        let mask := if bad then 0 else mask
        let (st, emit) := tsipv1_query st
        ⟨st, mask, bad, emit⟩

/-! ### Legacy dispatcher -/

/-- decode_x1c (driver_tsip.c:1445): second-level switch on the version
sub-code with per-sub-code minimum lengths.  (The source then requests
x8f-42 via tsip_write1; outbound traffic is not part of the modelled
state.)  Returns (state, mask, bad_len). -/
def decode_x1c (dec : DecEnv) (st : Session) (buf : List Nat) (len : Nat) (now : Int) :
    Session × Nat × Nat :=
  let u1 := getub buf 0
  match u1 with
  | 0x81 =>
    if len < 10 then (st, 0, 10)
    else
      let r := dec 0x1c81 buf len now st
      (r.1, r.2.1, 0)
  | 0x83 =>
    if len < 13 then (st, 0, 13)
    else
      let r := dec 0x1c83 buf len now st
      (r.1, r.2.1, 0)
  | _ => (st, 0, 0)

/-- decode_x8f (driver_tsip.c:3309): superpacket switch on the first
payload byte with per-sub-code minimum lengths; sub-code 0x20 accepts
exactly length 56 or 64 and runs the concretely embedded decode_x8f_20;
sub-code 0xab stores the receive time to `last_41` before decoding; all
other handled sub-codes run the decoder environment; unhandled sub-codes
only log.  Returns (state, mask, bad_len). -/
def decode_x8f (dec : DecEnv) (st : Session) (buf : List Nat) (len : Nat) (now : Int) :
    Session × Nat × Nat :=
  let u1 := getub buf 0
  let runDec (key : Nat) : Session × Nat × Nat :=
    let r := dec key buf len now st
    (r.1, r.2.1, 0)
  match u1 with
  | 0x15 => if len < 43 then (st, 0, 43) else runDec 0x8f15
  | 0x20 =>
    if len ≠ 56 ∧ len ≠ 64 then (st, 0, 56)
    else
      let r := decode_x8f_20 st buf len
      (r.1, r.2, 0)
  | 0x23 => if len < 29 then (st, 0, 29) else runDec 0x8f23
  | 0x42 => if len < 19 then (st, 0, 19) else runDec 0x8f42
  | 0xa5 => if len < 5 then (st, 0, 5) else runDec 0x8fa5
  | 0xa6 => if len < 3 then (st, 0, 3) else runDec 0x8fa6
  | 0xa7 => if len < 10 then (st, 0, 10) else runDec 0x8fa7
  | 0xa9 => if len < 11 then (st, 0, 11) else runDec 0x8fa9
  | 0xab =>
    if len < 17 then (st, 0, 17)
    else
      let st := { st with last_41 := now }
      let r := dec 0x8fab buf len now st
      (r.1, r.2.1, 0)
  | 0xac => if len < 68 then (st, 0, 68) else runDec 0x8fac
  | _ => (st, 0, 0)

/-- Scheduler tail of tsip_parse_input (driver_tsip.c:6064-6137): compare
the elapsed time since each last request against its fixed interval and
refresh the request timestamps.  (The request frames sent through
tsip_write1 are not part of the modelled state.) -/
def schedTail (st : Session) (now : Int) : Session :=
  let st := { st with last_41 := if 5 < |now - st.last_41| then now else st.last_41 }
  let st := { st with last_6d := if 5 < |now - st.last_6d| then now else st.last_6d }
  let st := { st with last_48 :=
                if st.superpkt < 1 ∧ 60 < |now - st.last_48| then now else st.last_48 }
  let st := { st with last_5c := if 5 < |now - st.last_5c| then now else st.last_5c }
  let st := { st with last_46 := if 5 < |now - st.last_46| then now else st.last_46 }
  let st := { st with req_compact :=
                if 0 < st.req_compact ∧ 5 < |now - st.req_compact| then 0 else st.req_compact }
  st

/-- Result of the legacy dispatcher: final session, change mask and the
reported bad length (0 when no length failure was reported). -/
structure LRes where
  sess : Session
  mask : Nat
  badLen : Nat
  deriving DecidableEq, Repr

/-- tsip_parse_input (driver_tsip.c:5111), from the extracted (id,
payload) on: the per-ID switch with its minimum-length guards
(lines 5174-6049) and the scheduler tail.  TSIPv1 ids return through
tsipv1_parse before the tail runs, as in the source; ids the source
routes to its default case (the long FALLTHROUGH chains and unknown ids)
only log.  The lexer-facing prefix (lines 5121-5161) that extracts id
and the zero-padded payload from the raw frame is the caller here. -/
def tsip_parse_input (dec : DecEnv) (st : Session) (id : Nat) (buf : List Nat) : LRes :=
  let len := buf.length
  let now : Int :=
    if st.lastfix_sec ≠ 0 then st.lastfix_sec
    else if st.oldfix_sec ≠ 0 then st.oldfix_sec
    else 0
  let run (key m : Nat) : Session × Nat × Nat :=
    if len < m then (st, 0, m)
    else
      let r := dec key buf len now st
      (r.1, r.2.1, 0)
  let fin (t : Session × Nat × Nat) : LRes := ⟨schedTail t.1 now, t.2.1, t.2.2⟩
  if id = 0x13 then fin (run 0x13 1)
  else if id = 0x1c then fin (decode_x1c dec st buf len now)
  else if id = 0x41 then
    fin (if len < 10 then (st, 0, 10)
         else
           let st := { st with last_41 := now }
           let r := dec 0x41 buf len now st
           (r.1, r.2.1, 0))
  else if id = 0x42 then fin (run 0x42 16)
  else if id = 0x43 then fin (run 0x43 20)
  else if id = 0x45 then fin (run 0x45 10)
  else if id = 0x46 then
    fin (if len < 2 then (st, 0, 2)
         else
           let st := { st with last_46 := now }
           let r := dec 0x46 buf len now st
           (r.1, r.2.1, 0))
  else if id = 0x47 then fin (if len < 1 then (st, 0, 1) else decode_x47 st buf len)
  else if id = 0x48 then fin (st, 0, 0)
  else if id = 0x4a then fin (run 0x4a 20)
  else if id = 0x4b then fin (run 0x4b 3)
  else if id = 0x4c then fin (run 0x4c 17)
  else if id = 0x54 then fin (run 0x54 12)
  else if id = 0x55 then fin (run 0x55 4)
  else if id = 0x56 then fin (run 0x56 20)
  else if id = 0x57 then fin (run 0x57 8)
  else if id = 0x5a then fin (run 0x5a 25)
  else if id = 0x5c then fin (run 0x5c 24)
  else if id = 0x5d then
    fin (if len < 26 then (st, 0, 26)
         else
           let r := decode_x5d st buf
           (r.1, r.2, 0))
  else if id = 0x6c then
    fin (if len < 18 then (st, 0, 18)
         else
           let st := { st with last_6d := now }
           decode_x6c st buf len)
  else if id = 0x6d then
    fin (if len < 17 then (st, 0, 17)
         else
           let st := { st with last_6d := now }
           dec 0x6d buf len now st)
  else if id = 0x82 then fin (run 0x82 1)
  else if id = 0x83 then fin (run 0x83 36)
  else if id = 0x84 then fin (run 0x84 36)
  else if id = 0x8f then fin (decode_x8f dec st buf len now)
  else if id = 0x90 ∨ id = 0x91 ∨ id = 0x92 ∨ id = 0x93 ∨ id = 0xa0 ∨ id = 0xa1 ∨
          id = 0xa2 ∨ id = 0xa3 ∨ id = 0xa4 ∨ id = 0xa5 ∨ id = 0xd0 then
    let r := tsipv1_parse dec st id buf
    ⟨r.sess, r.mask, 0⟩
  else if id = 0xbb then
    fin (if len ≠ 40 ∧ len ≠ 43 then (st, 0, 40)
         else
           let r := dec 0xbb buf len now st
           (r.1, r.2.1, 0))
  else fin (st, 0, 0)

/-- Documented minimum lengths enforced before any decoder state change:
per legacy id, per 0x1c and 0x8f sub-code (keys `0x1c00 + sub`,
`0x8f00 + sub`), and per TSIPv1 (id, sub-id) pair on the declared length
(keys `id * 256 + sub`).  Transcribed from the dispatch guards. -/
def minKeyLen : Nat → Option Nat := fun key =>
  if key = 0x13 then some 1
  else if key = 0x41 then some 10
  else if key = 0x42 then some 16
  else if key = 0x43 then some 20
  else if key = 0x45 then some 10
  else if key = 0x46 then some 2
  else if key = 0x47 then some 1
  else if key = 0x4a then some 20
  else if key = 0x4b then some 3
  else if key = 0x4c then some 17
  else if key = 0x54 then some 12
  else if key = 0x55 then some 4
  else if key = 0x56 then some 20
  else if key = 0x57 then some 8
  else if key = 0x5a then some 25
  else if key = 0x5c then some 24
  else if key = 0x5d then some 26
  else if key = 0x6c then some 18
  else if key = 0x6d then some 17
  else if key = 0x82 then some 1
  else if key = 0x83 then some 36
  else if key = 0x84 then some 36
  else if key = 0xbb then some 40
  else if key = 0x1c81 then some 10
  else if key = 0x1c83 then some 13
  else if key = 0x8f15 then some 43
  else if key = 0x8f20 then some 56
  else if key = 0x8f23 then some 29
  else if key = 0x8f42 then some 19
  else if key = 0x8fa5 then some 5
  else if key = 0x8fa6 then some 3
  else if key = 0x8fa7 then some 10
  else if key = 0x8fa9 then some 11
  else if key = 0x8fab then some 17
  else if key = 0x8fac then some 68
  else if key = 0x9000 then some 11
  else if key = 0x9001 then some 11
  else if key = 0x9100 then some 17
  else if key = 0x9101 then some 28
  else if key = 0x9102 then some 8
  else if key = 0x9103 then some 19
  else if key = 0x9104 then some 11
  else if key = 0x9105 then some 19
  else if key = 0x9201 then some 3
  else if key = 0x9300 then some 78
  else if key = 0xa000 then some 3
  else if key = 0xa100 then some 32
  else if key = 0xa102 then some 17
  else if key = 0xa111 then some 52
  else if key = 0xa200 then some 25
  else if key = 0xa300 then some 18
  else if key = 0xa311 then some 29
  else if key = 0xa321 then some 5
  else if key = 0xd000 then some 3
  else if key = 0xd001 then some 4
  else none

/-! ### Shared helpers for the theorems -/

/-- Concrete session with all fields zeroed, a 64-entry skyview table and
a 140-entry used-satellite array. -/
def sess0 : Session where
  queue := 0
  passive := false
  status := 0
  mode := 0
  latitude := 0
  longitude := 0
  altHAE := 0
  velN := 0
  velE := 0
  velD := 0
  time := (0, 0)
  satellites_used := 0
  satellites_visible := 0
  dop_pdop := 0
  dop_hdop := 0
  dop_vdop := 0
  dop_tdop := 0
  skyview := List.replicate TSIP_CHANNELS SkyChan.zero
  sats_used := List.replicate MAXCHANNELS 0
  last_tow := (0, 0)
  last_chan_seen := 0
  leap_seconds := 0
  valid_leap := false
  gps_week := 0
  superpkt := 0
  lastfix_sec := 0
  oldfix_sec := 0
  last_41 := 0
  last_46 := 0
  last_48 := 0
  last_5c := 0
  last_6d := 0
  req_compact := 0

/-- Decoder environment that decodes nothing: every abstracted decoder
leaves the session unchanged and reports no change and no length error. -/
def dec0 : DecEnv := fun _ _ _ _ st => (st, 0, 0)

/-- Projection of a session onto its navigation-fix and skyview state:
everything except the round-robin query counter and the per-report
request timestamps. -/
def fixSky (s : Session) :=
  (s.status, s.mode, s.latitude, s.longitude, s.altHAE, s.velN, s.velE, s.velD,
   s.time, s.satellites_used, s.satellites_visible,
   s.dop_pdop, s.dop_hdop, s.dop_vdop, s.dop_tdop,
   s.skyview, s.sats_used, s.last_tow, s.last_chan_seen,
   s.leap_seconds, s.valid_leap)

/-- Three-byte buffer: a TSIPv1 runt (fails envelope gate 1). -/
def v1RuntBuf : List Nat := [0x00, 0x00, 0x02]

/-- Valid TSIPv1 envelope for id 0x90: sub-id 0x00, declared length 4,
mode 2 (response), two payload bytes, and a trailing byte making the XOR
with the id zero (0x90 xor 0x04 xor 0x02 xor 0x96 = 0). -/
def v1GoodBuf : List Nat := [0x00, 0x00, 0x04, 0x02, 0x96, 0x00, 0x00]

/-- Superpacket x8f-20 payload (56 bytes, all zero except latitude bytes
12..15 = 0x40000000 semicircles). -/
def x8f20LatBuf : List Nat := (List.replicate 56 0).set 12 0x40

/-- Superpacket x8f-20 payload with time-of-week 1000 ms (bytes 8..11)
and a sane satellite count of zero. -/
def x8f20TowBuf : List Nat := ((List.replicate 56 0).set 10 0x03).set 11 0xE8

/-- Superpacket x8f-20 payload with time-of-week 1000 ms and an
out-of-range satellite count numSV = 200 (byte 28). -/
def x8f20BadSVBuf : List Nat := (((List.replicate 56 0).set 10 0x03).set 11 0xE8).set 28 200

/-- Payload for packet 0x6c of length 18: PDOP bytes 1..4 hold the IEEE
single 1.0 (0x3F800000), the other DOPs are 0.0, and the count byte 17
is 1, so the required length 18 + count = 19 exceeds the payload. -/
def x6cBuf : List Nat := [0x00, 0x3F, 0x80, 0x00, 0x00] ++ List.replicate 12 0 ++ [0x01]

/-- Payload for packet 0x5d (26 bytes) whose channel byte 1 is 64, one
past the last valid channel index. -/
def x5dBuf : List Nat := (List.replicate 26 0).set 1 64

lemma fixSky_schedTail (st : Session) (now : Int) : fixSky (schedTail st now) = fixSky st := rfl

lemma fixSky_query (s : Session) : fixSky (tsipv1_query s).1 = fixSky s := rfl

lemma tsipv1_query_queue (s : Session) :
    (tsipv1_query s).1 = { s with queue := (s.queue + 1) &&& 0xffff } := rfl

lemma getub_lt (buf : List Nat) (i : Nat) : getub buf i < 256 :=
  Nat.mod_lt _ (by norm_num)

lemma getbeu16_lt (buf : List Nat) (i : Nat) : getbeu16 buf i < 65536 := by
  have h1 := getub_lt buf i
  have h2 := getub_lt buf (i + 1)
  unfold getbeu16
  omega

lemma getbeu32_lt (buf : List Nat) (i : Nat) : getbeu32 buf i < 4294967296 := by
  have h1 := getbeu16_lt buf i
  have h2 := getbeu16_lt buf (i + 2)
  unfold getbeu32
  omega

lemma tsip1_checksum_append (l : List Nat) (c : Nat) :
    tsip1_checksum (l ++ [c]) = tsip1_checksum l ^^^ c := by
  simp [tsip1_checksum, List.foldl_append]

lemma tsip1_checksum_withChk (l : List Nat) : tsip1_checksum (withChk l) = 0 := by
  simp [withChk, tsip1_checksum_append, Nat.xor_self]

lemma tsip1_checksum_flip (l : List Nat) (c : Nat) (hc : c ≠ tsip1_checksum l) :
    tsip1_checksum (l ++ [c]) ≠ 0 := by
  rw [tsip1_checksum_append]
  intro h
  exact hc (Nat.xor_eq_zero.mp h).symm

lemma x6c_f1 : getbef32 x6cBuf 1 = F32.finite 1 := by
  have hb : getbeu32 x6cBuf 1 = 0x3F800000 := by decide
  simp only [getbef32, hb]
  norm_num

lemma x6c_f5 : getbef32 x6cBuf 5 = F32.finite 0 := by
  have hb : getbeu32 x6cBuf 5 = 0 := by decide
  simp only [getbef32, hb]
  norm_num

lemma x6c_f9 : getbef32 x6cBuf 9 = F32.finite 0 := by
  have hb : getbeu32 x6cBuf 9 = 0 := by decide
  simp only [getbef32, hb]
  norm_num

lemma x6c_f13 : getbef32 x6cBuf 13 = F32.finite 0 := by
  have hb : getbeu32 x6cBuf 13 = 0 := by decide
  simp only [getbef32, hb]
  norm_num

lemma IN_dop_one : IN 0.01 (F32.finite 1) 89.99 = true := by
  simp only [IN, Bool.and_eq_true, decide_eq_true_eq]
  norm_num

lemma IN_dop_zero : IN 0.01 (F32.finite 0) 89.99 = false := by
  simp only [IN, Bool.and_eq_false_iff, decide_eq_false_iff_not, decide_eq_true_eq]
  norm_num

/-! ### Claim theorems -/

/-- C4: the legacy-family remap sends PRN 1 (constellation code 0) to
(GPS, svid 1), PRN 44 to (SBAS, svid 131), PRN 70 to (GLONASS, svid 6);
the enveloped-family remap sends SV-type 13 (Beidou B1) to BeiDou; and
the two families use distinct mapping functions (SV-type 1 is GLONASS in
the legacy family but GPS in the enveloped family). -/
theorem satellite_remap_families :
    tsip_gnssid 0 1 = (GNSSID_GPS, 1) ∧
    tsip_gnssid 0 44 = (GNSSID_SBAS, 131) ∧
    tsip_gnssid 0 70 = (GNSSID_GLO, 6) ∧
    (tsipv1_svtype 13).1 = GNSSID_BD ∧
    (tsip_gnssid 1 70).1 ≠ (tsipv1_svtype 1).1 := by
  decide

/-- C5: in decode_x8f_20, a newly learned leap-second count above 17
with a week below 1930 adds 1024 to the week before time resolution, and
1024 again if the week is still below 1930; a leap-second count of 17 or
less, or a week of 1930 or more, leaves the week unchanged. -/
theorem week_rollover_correction (ls week : Nat) :
    (17 < ls ∧ week < 1930 →
      x8f20_week_adjust ls week =
        if week + 1024 < 1930 then week + 2048 else week + 1024) ∧
    ((ls ≤ 17 ∨ 1930 ≤ week) → x8f20_week_adjust ls week = week) := by
  unfold x8f20_week_adjust
  constructor
  · rintro ⟨h1, h2⟩
    split_ifs <;> omega
  · intro h
    split_ifs <;> omega

/-- Witness for C5: leap seconds 18 with week 900 rolls over twice to
week 2948; leap seconds 17 leaves week 100 unchanged. -/
theorem week_rollover_correction_witness :
    x8f20_week_adjust 18 900 = 2948 ∧ x8f20_week_adjust 17 100 = 100 := by
  have h1 := (week_rollover_correction 18 900).1 ⟨by norm_num, by norm_num⟩
  have h2 := (week_rollover_correction 17 100).2 (Or.inl (by norm_num))
  exact ⟨by rw [h1]; norm_num, h2⟩

/-- C10: tsip_write1 returns 0 and writes nothing on a read-only session
(checked first), and returns -1 and writes nothing for a NULL, empty, or
over-half-buffer payload on a writable session. -/
theorem tsip_write1_guards (ro : Bool) (sz : Nat) (p : Option (List Nat)) (w : Bool) :
    (ro = true → tsip_write1 ro sz p w = (0, none)) ∧
    (ro = false →
      (p = none ∨ ∃ b, p = some b ∧ (b.length = 0 ∨ sz / 2 < b.length)) →
      tsip_write1 ro sz p w = (-1, none)) := by
  constructor
  · rintro rfl
    rfl
  · rintro rfl (rfl | ⟨b, rfl, hb⟩)
    · rfl
    · simp only [tsip_write1, Bool.false_eq_true, if_false]
      rw [if_pos hb]

/-- Witness for C10: read-only, NULL, empty, and 51-of-100 oversize
payloads at concrete arguments. -/
theorem tsip_write1_guards_witness :
    tsip_write1 true 100 (some [0x21]) true = (0, none) ∧
    tsip_write1 false 100 none true = (-1, none) ∧
    tsip_write1 false 100 (some []) true = (-1, none) ∧
    tsip_write1 false 100 (some (List.replicate 51 0)) true = (-1, none) := by
  refine ⟨(tsip_write1_guards true 100 (some [0x21]) true).1 rfl,
          (tsip_write1_guards false 100 none true).2 rfl (Or.inl rfl),
          (tsip_write1_guards false 100 (some []) true).2 rfl
            (Or.inr ⟨[], rfl, Or.inl rfl⟩),
          (tsip_write1_guards false 100 (some (List.replicate 51 0)) true).2 rfl
            (Or.inr ⟨_, rfl, Or.inr (by decide)⟩)⟩

lemma x8f20_longitude_val (st : Session) (buf : List Nat) (plen : Nat) :
    (decode_x8f_20 st buf plen).1.longitude =
      (if 180 < ((getbeu32 buf 16 : ℚ) * SEMI_2_DEG)
       then ((getbeu32 buf 16 : ℚ) * SEMI_2_DEG) - 360
       else ((getbeu32 buf 16 : ℚ) * SEMI_2_DEG)) := rfl

lemma x8f20_latitude_val (st : Session) (buf : List Nat) (plen : Nat) :
    (decode_x8f_20 st buf plen).1.latitude = ((getbes32 buf 12 : ℚ)) * SEMI_2_DEG := rfl

/-- C3 (amended): decode_x8f_20 scales semicircles by
SEMI_2_DEG = 180 / (2^31 - 1) — not 180 / 2^31 — so semicircle value
0x40000000 still lands within 1e-6 of 90 degrees, and the longitude,
after the subtract-360 normalization, always lies in (-180, 180]. -/
theorem semicircle_conversion (st : Session) (buf : List Nat) (plen : Nat) :
    (-180 < (decode_x8f_20 st buf plen).1.longitude ∧
      (decode_x8f_20 st buf plen).1.longitude ≤ 180) ∧
    (getbes32 buf 12 = 0x40000000 →
      |(decode_x8f_20 st buf plen).1.latitude - 90| ≤ 1 / 1000000) := by
  constructor
  · rw [x8f20_longitude_val]
    have hb := getbeu32_lt buf 16
    have hs : (0 : ℚ) < SEMI_2_DEG := by norm_num [SEMI_2_DEG]
    have h1 : ((getbeu32 buf 16 : ℚ)) ≤ 4294967295 := by
      exact_mod_cast Nat.lt_succ_iff.mp hb
    have h0 : (0 : ℚ) ≤ (getbeu32 buf 16 : ℚ) * SEMI_2_DEG := by positivity
    have h2 : ((getbeu32 buf 16 : ℚ)) * SEMI_2_DEG ≤ 4294967295 * SEMI_2_DEG :=
      mul_le_mul_of_nonneg_right h1 hs.le
    have h3 : (4294967295 : ℚ) * SEMI_2_DEG < 540 := by norm_num [SEMI_2_DEG]
    split_ifs with h
    · constructor <;> linarith
    · push_neg at h
      constructor <;> linarith
  · intro h
    rw [x8f20_latitude_val, h]
    rw [abs_le]
    constructor <;> norm_num [SEMI_2_DEG]

/-- Counterexample for C3 as stated: at semicircle value 0x40000000 the
decoded latitude is 0x40000000 * 180 / (2^31 - 1), which differs from
the claimed 0x40000000 * (180 / 2^31) = 90. -/
theorem semicircle_scale_counterexample :
    (decode_x8f_20 sess0 x8f20LatBuf 56).1.latitude ≠ (0x40000000 : ℚ) * (180 / 2 ^ 31) := by
  rw [x8f20_latitude_val]
  have h : getbes32 x8f20LatBuf 12 = 0x40000000 := by decide
  rw [h]
  norm_num [SEMI_2_DEG]

/-- Witness for C3: the amended conversion bounds evaluated on a
concrete x8f-20 payload carrying latitude 0x40000000. -/
theorem semicircle_conversion_witness :
    (-180 < (decode_x8f_20 sess0 x8f20LatBuf 56).1.longitude ∧
      (decode_x8f_20 sess0 x8f20LatBuf 56).1.longitude ≤ 180) ∧
    |(decode_x8f_20 sess0 x8f20LatBuf 56).1.latitude - 90| ≤ 1 / 1000000 := by
  have h := semicircle_conversion sess0 x8f20LatBuf 56
  exact ⟨h.1, h.2 (by decide)⟩

lemma x8f20_mask_val (st : Session) (buf : List Nat) (plen : Nat) :
    (decode_x8f_20 st buf plen).2 =
      (if MAXCHANNELS < getub buf 28 then 0
       else if MSTOTS (getbeu32 buf 8) ≠ st.last_tow
         then (ALTITUDE_SET ||| TIME_SET ||| NTPTIME_IS ||| LATLON_SET |||
               STATUS_SET ||| MODE_SET ||| VNED_SET) ||| CLEAR_IS
         else ALTITUDE_SET ||| TIME_SET ||| NTPTIME_IS ||| LATLON_SET |||
              STATUS_SET ||| MODE_SET ||| VNED_SET) := rfl

lemma x8f20_last_tow_val (st : Session) (buf : List Nat) (plen : Nat) :
    (decode_x8f_20 st buf plen).1.last_tow =
      (if MSTOTS (getbeu32 buf 8) ≠ st.last_tow
       then MSTOTS (getbeu32 buf 8) else st.last_tow) := rfl

/-- C6 (amended): for an x8f-20 packet whose satellite count does not
exceed MAXCHANNELS, the CLEAR_IS bit of the returned mask is set exactly
when the packet's time-of-week differs from the stored time-of-week, and
the stored time-of-week afterwards equals the packet's (it is updated on
a change and already equal otherwise). -/
theorem x8f20_epoch_clear (st : Session) (buf : List Nat) (plen : Nat)
    (h : getub buf 28 ≤ MAXCHANNELS) :
    ((decode_x8f_20 st buf plen).2 &&& CLEAR_IS ≠ 0 ↔
      MSTOTS (getbeu32 buf 8) ≠ st.last_tow) ∧
    (decode_x8f_20 st buf plen).1.last_tow = MSTOTS (getbeu32 buf 8) := by
  constructor
  · rw [x8f20_mask_val, if_neg (by omega)]
    by_cases hc : MSTOTS (getbeu32 buf 8) ≠ st.last_tow
    · rw [if_pos hc]
      exact ⟨fun _ => hc, fun _ => by decide⟩
    · rw [if_neg hc]
      exact ⟨fun hne => absurd (by decide) hne, fun hne => absurd hne hc⟩
  · rw [x8f20_last_tow_val]
    split_ifs with hc
    · rfl
    · exact (not_ne_iff.mp hc).symm

/-- Counterexample for C6 as stated: an x8f-20 packet with a changed
time-of-week but satellite count 200 (above MAXCHANNELS) returns a mask
without CLEAR_IS — the Coverity guard zeroes the mask — even though the
stored time-of-week was already updated. -/
theorem x8f20_epoch_clear_counterexample :
    MSTOTS (getbeu32 x8f20BadSVBuf 8) ≠ sess0.last_tow ∧
    (decode_x8f_20 sess0 x8f20BadSVBuf 56).2 &&& CLEAR_IS = 0 ∧
    (decode_x8f_20 sess0 x8f20BadSVBuf 56).1.last_tow = MSTOTS (getbeu32 x8f20BadSVBuf 8) := by
  refine ⟨by decide, ?_, ?_⟩
  · rw [x8f20_mask_val]
    decide
  · rw [x8f20_last_tow_val]
    decide

/-- Witness for C6: a concrete x8f-20 payload with time-of-week 1000 ms
and satellite count 0 raises CLEAR_IS against the zeroed session. -/
theorem x8f20_epoch_clear_witness :
    ((decode_x8f_20 sess0 x8f20TowBuf 56).2 &&& CLEAR_IS ≠ 0 ↔
      MSTOTS (getbeu32 x8f20TowBuf 8) ≠ sess0.last_tow) ∧
    (decode_x8f_20 sess0 x8f20TowBuf 56).1.last_tow = MSTOTS (getbeu32 x8f20TowBuf 8) :=
  x8f20_epoch_clear sess0 x8f20TowBuf 56 (by decide)

lemma x5d_mask_val (st : Session) (buf : List Nat) :
    (decode_x5d st buf).2 =
      (if getub buf 1 < TSIP_CHANNELS then
        (if (if getub buf 1 = 0 then st.last_chan_seen else st.satellites_visible)
            ≤ getub buf 1 + 1
         then SATELLITE_SET else 0)
       else 0) := by
  simp only [decode_x5d]
  split <;> rfl

lemma x5d_lcs_val (st : Session) (buf : List Nat) :
    (decode_x5d st buf).1.last_chan_seen = getub buf 1 := by
  simp only [decode_x5d]
  split <;> rfl

lemma x5d_sv_val (st : Session) (buf : List Nat) :
    (decode_x5d st buf).1.satellites_visible =
      (if getub buf 1 < TSIP_CHANNELS then
        (if (if getub buf 1 = 0 then st.last_chan_seen else st.satellites_visible)
            ≤ getub buf 1 + 1
         then getub buf 1 + 1
         else (if getub buf 1 = 0 then st.last_chan_seen else st.satellites_visible))
       else (if getub buf 1 = 0 then st.last_chan_seen else st.satellites_visible)) := by
  simp only [decode_x5d]
  split <;> rfl

/-- C9 (amended): in decode_x5d, channel index 0 publishes the previous
burst's last channel index as the visible count before the table
refills; for a channel index below TSIP_CHANNELS the SATELLITE_SET
signal is raised exactly when index + 1 is at least the currently
published visible count (which then becomes index + 1); a channel index
of TSIP_CHANNELS or more never raises the signal. -/
theorem x5d_skyview_accumulator (st : Session) (buf : List Nat) :
    ((decode_x5d st buf).2 &&& SATELLITE_SET ≠ 0 ↔
      (getub buf 1 < TSIP_CHANNELS ∧
        (if getub buf 1 = 0 then st.last_chan_seen else st.satellites_visible)
          ≤ getub buf 1 + 1)) ∧
    (decode_x5d st buf).1.last_chan_seen = getub buf 1 ∧
    (decode_x5d st buf).1.satellites_visible =
      (if getub buf 1 < TSIP_CHANNELS ∧
          (if getub buf 1 = 0 then st.last_chan_seen else st.satellites_visible)
            ≤ getub buf 1 + 1
       then getub buf 1 + 1
       else (if getub buf 1 = 0 then st.last_chan_seen else st.satellites_visible)) := by
  refine ⟨?_, x5d_lcs_val st buf, ?_⟩
  · rw [x5d_mask_val]
    by_cases h1 : getub buf 1 < TSIP_CHANNELS
    · rw [if_pos h1]
      by_cases h2 : (if getub buf 1 = 0 then st.last_chan_seen else st.satellites_visible)
          ≤ getub buf 1 + 1
      · rw [if_pos h2]
        simp only [h1, h2, and_self, iff_true]
        decide
      · rw [if_neg h2]
        simp [h2]
    · rw [if_neg h1]
      simp [h1]
  · rw [x5d_sv_val]
    by_cases h1 : getub buf 1 < TSIP_CHANNELS
    · by_cases h2 : (if getub buf 1 = 0 then st.last_chan_seen else st.satellites_visible)
          ≤ getub buf 1 + 1
      · simp [h1, h2]
      · simp [h1, h2]
    · simp [h1]

/-- Counterexample for C9 as stated: a per-satellite packet with channel
index 64 (one past the channel table) and published visible count 2
satisfies index + 1 >= count, yet no SATELLITE_SET signal is raised. -/
theorem x5d_channel_bound_counterexample :
    (decode_x5d { sess0 with satellites_visible := 2 } x5dBuf).2 &&& SATELLITE_SET = 0 ∧
    getub x5dBuf 1 = 64 ∧
    ({ sess0 with satellites_visible := 2 } : Session).satellites_visible ≤ 64 + 1 := by
  refine ⟨?_, by decide, by decide⟩
  rw [x5d_mask_val]
  decide

lemma probeFrame_checksum (n : Nat) (p : Bool) (f : List Nat)
    (h : probeFrame n p = some f) :
    tsip1_checksum f = 0 ∧
    ∀ c, c ≠ tsip1_checksum f.dropLast → tsip1_checksum (f.dropLast ++ [c]) ≠ 0 := by
  have base : ∀ l : List Nat,
      tsip1_checksum (withChk l) = 0 ∧
      ∀ c, c ≠ tsip1_checksum (withChk l).dropLast →
        tsip1_checksum ((withChk l).dropLast ++ [c]) ≠ 0 := by
    intro l
    have hd : (withChk l).dropLast = l := by
      simp [withChk]
    rw [hd]
    exact ⟨tsip1_checksum_withChk l, fun c hc => tsip1_checksum_flip l c hc⟩
  unfold probeFrame at h
  split at h
  · injection h with h
    subst h
    exact base _
  · injection h with h
    subst h
    exact base _
  · injection h with h
    subst h
    exact base _
  · injection h with h
    subst h
    exact base _
  · injection h with h
    subst h
    exact base _
  · injection h with h
    subst h
    exact base _
  · split at h <;>
      (injection h with h
       subst h
       exact base _)
  · injection h with h
    subst h
    exact base _
  · exact absurd h (by simp)

/-- C8: every probe frame the TSIPv1 query scheduler emits (id, sub-id,
big-endian length, mode, payload, trailing XOR checksum over all
preceding bytes) XORs to zero over all of its bytes — which is exactly
the dispatcher's verification, since tsipv1_parse XORs the outer id byte
with every remaining frame byte — and changing the trailing checksum
byte to any other value makes that XOR non-zero. -/
theorem query_frame_checksum (st : Session) (f : List Nat)
    (h : (tsipv1_query st).2 = some f) :
    tsip1_checksum f = 0 ∧
    ∀ c, c ≠ tsip1_checksum f.dropLast → tsip1_checksum (f.dropLast ++ [c]) ≠ 0 := by
  simp only [tsipv1_query] at h
  split at h
  · exact absurd h (by simp)
  · exact probeFrame_checksum _ _ f h

/-- Witness for C8: the protocol-version probe (queue 3 → branch 1)
checksums to zero, and zeroing its trailing checksum byte 0x92 breaks
verification. -/
theorem query_frame_checksum_witness :
    tsip1_checksum (withChk [0x90, 0x00, 0x00, 0x02, 0x00]) = 0 ∧
    tsip1_checksum ((withChk [0x90, 0x00, 0x00, 0x02, 0x00]).dropLast ++ [0x00]) ≠ 0 := by
  have h := query_frame_checksum { sess0 with queue := 3 }
    (withChk [0x90, 0x00, 0x00, 0x02, 0x00]) (by decide)
  exact ⟨h.1, h.2 0x00 (by decide)⟩

/-- C1: the four TSIPv1 envelope gates — runt, declared length + 3
against the buffer length, XOR checksum over the id and all buffer
bytes, and mode = 2 — are applied in source order; a packet failing any
gate aborts with an empty change mask, unchanged session, and no probe
emission, and only a packet passing all four is dispatched on its
(id, sub-id) pair and then handed to the query scheduler. -/
theorem tsipv1_envelope_gates (dec : DecEnv) (st : Session) (id : Nat) (buf : List Nat) :
    ((buf.length < 4 ∨ getbeu16 buf 1 + 3 ≠ buf.length ∨
        (buf.take (getbeu16 buf 1 + 3)).foldl (· ^^^ ·) id ≠ 0 ∨ getub buf 3 ≠ 2) →
      tsipv1_parse dec st id buf = ⟨st, 0, false, none⟩) ∧
    (4 ≤ buf.length → getbeu16 buf 1 + 3 = buf.length →
      (buf.take (getbeu16 buf 1 + 3)).foldl (· ^^^ ·) id = 0 → getub buf 3 = 2 →
      tsipv1_parse dec st id buf =
        ⟨(tsipv1_query (tsipv1_dispatch dec st id buf).1).1,
         (if (tsipv1_dispatch dec st id buf).2.2 then 0
          else (tsipv1_dispatch dec st id buf).2.1),
         (tsipv1_dispatch dec st id buf).2.2,
         (tsipv1_query (tsipv1_dispatch dec st id buf).1).2⟩) := by
  constructor
  · intro h
    simp only [tsipv1_parse]
    split_ifs with h1 h2 h3 h4
    · rfl
    · rfl
    · rfl
    · rfl
    all_goals
      exfalso
      rcases h with h | h | h | h
      exacts [h1 h, h2 h, h3 h, h4 h]
  · intro h1 h2 h3 h4
    simp only [tsipv1_parse]
    rw [if_neg (by omega), if_neg (not_ne_iff.mpr h2), if_neg (not_ne_iff.mpr h3),
        if_neg (not_ne_iff.mpr h4)]

/-- Witness for C1: a three-byte runt aborts untouched; a well-formed
x90-00 response envelope with declared length 4 (below the pair minimum
11) passes all four gates, is dispatched, reports the short pair length,
and advances the queue. -/
theorem tsipv1_envelope_gates_witness :
    tsipv1_parse dec0 sess0 0x90 v1RuntBuf = ⟨sess0, 0, false, none⟩ ∧
    tsipv1_parse dec0 sess0 0x90 v1GoodBuf = ⟨{ sess0 with queue := 1 }, 0, true, none⟩ := by
  constructor
  · exact (tsipv1_envelope_gates dec0 sess0 0x90 v1RuntBuf).1 (Or.inl (by decide))
  · have h := (tsipv1_envelope_gates dec0 sess0 0x90 v1GoodBuf).2
      (by decide) (by decide) (by decide) (by decide)
    rw [h]
    decide

set_option maxHeartbeats 1600000 in
/-- C2 (amended): for every decoder environment that leaves the
round-robin counter alone (true of every decoder in the source), a
TSIPv1 packet that passes the four envelope gates advances the counter
exactly once — wrapping via `&= 0x0ffff` — and may emit the next
scheduled probe, regardless of decode success, per-pair length failure,
or unknown (id, sub-id); a packet failing any envelope gate leaves the
counter unchanged and emits nothing. -/
theorem tsipv1_queue_advance (dec : DecEnv) (st : Session) (id : Nat) (buf : List Nat)
    (hq : ∀ k b l n s, ((dec k b l n s).1).queue = s.queue) :
    (4 ≤ buf.length → getbeu16 buf 1 + 3 = buf.length →
      (buf.take (getbeu16 buf 1 + 3)).foldl (· ^^^ ·) id = 0 → getub buf 3 = 2 →
      (tsipv1_parse dec st id buf).sess.queue = (st.queue + 1) &&& 0xffff ∧
      (tsipv1_parse dec st id buf).emit =
        (tsipv1_query (tsipv1_dispatch dec st id buf).1).2) ∧
    ((buf.length < 4 ∨ getbeu16 buf 1 + 3 ≠ buf.length ∨
        (buf.take (getbeu16 buf 1 + 3)).foldl (· ^^^ ·) id ≠ 0 ∨ getub buf 3 ≠ 2) →
      (tsipv1_parse dec st id buf).sess.queue = st.queue ∧
      (tsipv1_parse dec st id buf).emit = none) := by
  have hd : (tsipv1_dispatch dec st id buf).1.queue = st.queue := by
    simp only [tsipv1_dispatch]
    rcases htc : tsipv1_case (id * 256 + getub buf 0) with m | _ | _
    · show (if getbeu16 buf 1 < m then ((st, 0, true) : Session × Nat × Bool)
            else ((dec (id * 256 + getub buf 0) buf buf.length 0 st).1,
                  (dec (id * 256 + getub buf 0) buf buf.length 0 st).2.1,
                  false)).1.queue = st.queue
      split_ifs
      · rfl
      · exact hq _ _ _ _ _
    · show (if getbeu16 buf 1 ≠ 3 ∧ getbeu16 buf 1 ≠ 8 then ((st, 0, true) : Session × Nat × Bool)
            else ((dec (id * 256 + getub buf 0) buf buf.length 0 st).1,
                  (dec (id * 256 + getub buf 0) buf buf.length 0 st).2.1,
                  false)).1.queue = st.queue
      split_ifs
      · rfl
      · exact hq _ _ _ _ _
    · rfl
  constructor
  · intro h1 h2 h3 h4
    simp only [tsipv1_parse]
    rw [if_neg (by omega), if_neg (not_ne_iff.mpr h2), if_neg (not_ne_iff.mpr h3),
        if_neg (not_ne_iff.mpr h4)]
    constructor
    · show (tsipv1_query (tsipv1_dispatch dec st id buf).1).1.queue = (st.queue + 1) &&& 0xffff
      rw [tsipv1_query_queue]
      simp [hd]
    · rfl
  · intro h
    simp only [tsipv1_parse]
    split_ifs with h1 h2 h3 h4
    · exact ⟨rfl, rfl⟩
    · exact ⟨rfl, rfl⟩
    · exact ⟨rfl, rfl⟩
    · exact ⟨rfl, rfl⟩
    all_goals
      exfalso
      rcases h with h | h | h | h
      exacts [h1 h, h2 h, h3 h, h4 h]

/-- Counterexample for C2 as stated: a three-byte TSIPv1 runt returns
with the round-robin counter unchanged at 5 — the envelope gates return
before tsipv1_query runs — whereas advancing once would give 6. -/
theorem tsipv1_runt_no_advance :
    (tsipv1_parse dec0 { sess0 with queue := 5 } 0x90 v1RuntBuf).sess.queue = 5 ∧
    ((5 : Nat) + 1) &&& 0xffff ≠ 5 := by
  decide

/-- Witness for C2: the counter advances on the valid envelope and
stands still on the runt, both at concrete inputs. -/
theorem tsipv1_queue_advance_witness :
    (tsipv1_parse dec0 sess0 0x90 v1GoodBuf).sess.queue = (sess0.queue + 1) &&& 0xffff ∧
    (tsipv1_parse dec0 sess0 0x90 v1RuntBuf).sess.queue = sess0.queue := by
  have h1 := (tsipv1_queue_advance dec0 sess0 0x90 v1GoodBuf (fun _ _ _ _ _ => rfl)).1
    (by decide) (by decide) (by decide) (by decide)
  have h2 := (tsipv1_queue_advance dec0 sess0 0x90 v1RuntBuf (fun _ _ _ _ _ => rfl)).2
    (Or.inl (by decide))
  exact ⟨h1.1, h2.1⟩

set_option maxHeartbeats 4000000 in
/-- C7 (amended): every fixed minimum-length guard — per legacy id, per
0x1c and 0x8f sub-code, and per TSIPv1 (id, sub-id) pair on the declared
length — is checked before any decoder runs, so a packet shorter than
that minimum is reported as a length failure, yields an empty change
mask, and leaves the navigation fix and skyview state untouched.  (The
content-dependent length checks inside decode_x47 and decode_x6c are the
exception the counterexample exhibits.) -/
theorem dispatch_length_guards (dec : DecEnv) (st : Session) (id : Nat) (buf : List Nat) :
    (id < 256 → ∀ m, minKeyLen id = some m → buf.length < m →
      (tsip_parse_input dec st id buf).mask = 0 ∧
      (tsip_parse_input dec st id buf).badLen ≠ 0 ∧
      fixSky (tsip_parse_input dec st id buf).sess = fixSky st) ∧
    (∀ m, minKeyLen (0x1c00 + getub buf 0) = some m → buf.length < m →
      (tsip_parse_input dec st 0x1c buf).mask = 0 ∧
      (tsip_parse_input dec st 0x1c buf).badLen ≠ 0 ∧
      fixSky (tsip_parse_input dec st 0x1c buf).sess = fixSky st) ∧
    (∀ m, minKeyLen (0x8f00 + getub buf 0) = some m → buf.length < m →
      (tsip_parse_input dec st 0x8f buf).mask = 0 ∧
      (tsip_parse_input dec st 0x8f buf).badLen ≠ 0 ∧
      fixSky (tsip_parse_input dec st 0x8f buf).sess = fixSky st) ∧
    (∀ m, 0x9000 ≤ id * 256 + getub buf 0 → minKeyLen (id * 256 + getub buf 0) = some m →
      4 ≤ buf.length → getbeu16 buf 1 + 3 = buf.length →
      (buf.take (getbeu16 buf 1 + 3)).foldl (· ^^^ ·) id = 0 → getub buf 3 = 2 →
      getbeu16 buf 1 < m →
      (tsipv1_parse dec st id buf).mask = 0 ∧
      (tsipv1_parse dec st id buf).badLen = true ∧
      fixSky (tsipv1_parse dec st id buf).sess = fixSky st) := by
  refine ⟨?_, ?_, ?_, ?_⟩
  · intro hid m hm hlen
    unfold minKeyLen at hm
    by_cases hA0 : id = 0x13
    · rw [if_pos hA0] at hm
      injection hm with hm
      subst_vars
      simp [tsip_parse_input, hlen, fixSky_schedTail]
    rw [if_neg hA0] at hm
    by_cases hA1 : id = 0x41
    · rw [if_pos hA1] at hm
      injection hm with hm
      subst_vars
      simp [tsip_parse_input, hlen, fixSky_schedTail]
    rw [if_neg hA1] at hm
    by_cases hA2 : id = 0x42
    · rw [if_pos hA2] at hm
      injection hm with hm
      subst_vars
      simp [tsip_parse_input, hlen, fixSky_schedTail]
    rw [if_neg hA2] at hm
    by_cases hA3 : id = 0x43
    · rw [if_pos hA3] at hm
      injection hm with hm
      subst_vars
      simp [tsip_parse_input, hlen, fixSky_schedTail]
    rw [if_neg hA3] at hm
    by_cases hA4 : id = 0x45
    · rw [if_pos hA4] at hm
      injection hm with hm
      subst_vars
      simp [tsip_parse_input, hlen, fixSky_schedTail]
    rw [if_neg hA4] at hm
    by_cases hA5 : id = 0x46
    · rw [if_pos hA5] at hm
      injection hm with hm
      subst_vars
      simp [tsip_parse_input, hlen, fixSky_schedTail]
    rw [if_neg hA5] at hm
    by_cases hA6 : id = 0x47
    · rw [if_pos hA6] at hm
      injection hm with hm
      subst_vars
      simp [tsip_parse_input, hlen, fixSky_schedTail]
    rw [if_neg hA6] at hm
    by_cases hA7 : id = 0x4a
    · rw [if_pos hA7] at hm
      injection hm with hm
      subst_vars
      simp [tsip_parse_input, hlen, fixSky_schedTail]
    rw [if_neg hA7] at hm
    by_cases hA8 : id = 0x4b
    · rw [if_pos hA8] at hm
      injection hm with hm
      subst_vars
      simp [tsip_parse_input, hlen, fixSky_schedTail]
    rw [if_neg hA8] at hm
    by_cases hA9 : id = 0x4c
    · rw [if_pos hA9] at hm
      injection hm with hm
      subst_vars
      simp [tsip_parse_input, hlen, fixSky_schedTail]
    rw [if_neg hA9] at hm
    by_cases hA10 : id = 0x54
    · rw [if_pos hA10] at hm
      injection hm with hm
      subst_vars
      simp [tsip_parse_input, hlen, fixSky_schedTail]
    rw [if_neg hA10] at hm
    by_cases hA11 : id = 0x55
    · rw [if_pos hA11] at hm
      injection hm with hm
      subst_vars
      simp [tsip_parse_input, hlen, fixSky_schedTail]
    rw [if_neg hA11] at hm
    by_cases hA12 : id = 0x56
    · rw [if_pos hA12] at hm
      injection hm with hm
      subst_vars
      simp [tsip_parse_input, hlen, fixSky_schedTail]
    rw [if_neg hA12] at hm
    by_cases hA13 : id = 0x57
    · rw [if_pos hA13] at hm
      injection hm with hm
      subst_vars
      simp [tsip_parse_input, hlen, fixSky_schedTail]
    rw [if_neg hA13] at hm
    by_cases hA14 : id = 0x5a
    · rw [if_pos hA14] at hm
      injection hm with hm
      subst_vars
      simp [tsip_parse_input, hlen, fixSky_schedTail]
    rw [if_neg hA14] at hm
    by_cases hA15 : id = 0x5c
    · rw [if_pos hA15] at hm
      injection hm with hm
      subst_vars
      simp [tsip_parse_input, hlen, fixSky_schedTail]
    rw [if_neg hA15] at hm
    by_cases hA16 : id = 0x5d
    · rw [if_pos hA16] at hm
      injection hm with hm
      subst_vars
      simp [tsip_parse_input, hlen, fixSky_schedTail]
    rw [if_neg hA16] at hm
    by_cases hA17 : id = 0x6c
    · rw [if_pos hA17] at hm
      injection hm with hm
      subst_vars
      simp [tsip_parse_input, hlen, fixSky_schedTail]
    rw [if_neg hA17] at hm
    by_cases hA18 : id = 0x6d
    · rw [if_pos hA18] at hm
      injection hm with hm
      subst_vars
      simp [tsip_parse_input, hlen, fixSky_schedTail]
    rw [if_neg hA18] at hm
    by_cases hA19 : id = 0x82
    · rw [if_pos hA19] at hm
      injection hm with hm
      subst_vars
      simp [tsip_parse_input, hlen, fixSky_schedTail]
    rw [if_neg hA19] at hm
    by_cases hA20 : id = 0x83
    · rw [if_pos hA20] at hm
      injection hm with hm
      subst_vars
      simp [tsip_parse_input, hlen, fixSky_schedTail]
    rw [if_neg hA20] at hm
    by_cases hA21 : id = 0x84
    · rw [if_pos hA21] at hm
      injection hm with hm
      subst_vars
      simp [tsip_parse_input, hlen, fixSky_schedTail]
    rw [if_neg hA21] at hm
    by_cases hA22 : id = 0xbb
    · rw [if_pos hA22] at hm
      injection hm with hm
      subst_vars
      have hb : buf.length ≠ 40 ∧ buf.length ≠ 43 := ⟨by omega, by omega⟩
      simp [tsip_parse_input, hb, fixSky_schedTail]
    rw [if_neg hA22] at hm
    by_cases hA23 : id = 0x1c81
    · exact absurd (hA23 ▸ hid) (by decide)
    rw [if_neg hA23] at hm
    by_cases hA24 : id = 0x1c83
    · exact absurd (hA24 ▸ hid) (by decide)
    rw [if_neg hA24] at hm
    by_cases hA25 : id = 0x8f15
    · exact absurd (hA25 ▸ hid) (by decide)
    rw [if_neg hA25] at hm
    by_cases hA26 : id = 0x8f20
    · exact absurd (hA26 ▸ hid) (by decide)
    rw [if_neg hA26] at hm
    by_cases hA27 : id = 0x8f23
    · exact absurd (hA27 ▸ hid) (by decide)
    rw [if_neg hA27] at hm
    by_cases hA28 : id = 0x8f42
    · exact absurd (hA28 ▸ hid) (by decide)
    rw [if_neg hA28] at hm
    by_cases hA29 : id = 0x8fa5
    · exact absurd (hA29 ▸ hid) (by decide)
    rw [if_neg hA29] at hm
    by_cases hA30 : id = 0x8fa6
    · exact absurd (hA30 ▸ hid) (by decide)
    rw [if_neg hA30] at hm
    by_cases hA31 : id = 0x8fa7
    · exact absurd (hA31 ▸ hid) (by decide)
    rw [if_neg hA31] at hm
    by_cases hA32 : id = 0x8fa9
    · exact absurd (hA32 ▸ hid) (by decide)
    rw [if_neg hA32] at hm
    by_cases hA33 : id = 0x8fab
    · exact absurd (hA33 ▸ hid) (by decide)
    rw [if_neg hA33] at hm
    by_cases hA34 : id = 0x8fac
    · exact absurd (hA34 ▸ hid) (by decide)
    rw [if_neg hA34] at hm
    by_cases hA35 : id = 0x9000
    · exact absurd (hA35 ▸ hid) (by decide)
    rw [if_neg hA35] at hm
    by_cases hA36 : id = 0x9001
    · exact absurd (hA36 ▸ hid) (by decide)
    rw [if_neg hA36] at hm
    by_cases hA37 : id = 0x9100
    · exact absurd (hA37 ▸ hid) (by decide)
    rw [if_neg hA37] at hm
    by_cases hA38 : id = 0x9101
    · exact absurd (hA38 ▸ hid) (by decide)
    rw [if_neg hA38] at hm
    by_cases hA39 : id = 0x9102
    · exact absurd (hA39 ▸ hid) (by decide)
    rw [if_neg hA39] at hm
    by_cases hA40 : id = 0x9103
    · exact absurd (hA40 ▸ hid) (by decide)
    rw [if_neg hA40] at hm
    by_cases hA41 : id = 0x9104
    · exact absurd (hA41 ▸ hid) (by decide)
    rw [if_neg hA41] at hm
    by_cases hA42 : id = 0x9105
    · exact absurd (hA42 ▸ hid) (by decide)
    rw [if_neg hA42] at hm
    by_cases hA43 : id = 0x9201
    · exact absurd (hA43 ▸ hid) (by decide)
    rw [if_neg hA43] at hm
    by_cases hA44 : id = 0x9300
    · exact absurd (hA44 ▸ hid) (by decide)
    rw [if_neg hA44] at hm
    by_cases hA45 : id = 0xa000
    · exact absurd (hA45 ▸ hid) (by decide)
    rw [if_neg hA45] at hm
    by_cases hA46 : id = 0xa100
    · exact absurd (hA46 ▸ hid) (by decide)
    rw [if_neg hA46] at hm
    by_cases hA47 : id = 0xa102
    · exact absurd (hA47 ▸ hid) (by decide)
    rw [if_neg hA47] at hm
    by_cases hA48 : id = 0xa111
    · exact absurd (hA48 ▸ hid) (by decide)
    rw [if_neg hA48] at hm
    by_cases hA49 : id = 0xa200
    · exact absurd (hA49 ▸ hid) (by decide)
    rw [if_neg hA49] at hm
    by_cases hA50 : id = 0xa300
    · exact absurd (hA50 ▸ hid) (by decide)
    rw [if_neg hA50] at hm
    by_cases hA51 : id = 0xa311
    · exact absurd (hA51 ▸ hid) (by decide)
    rw [if_neg hA51] at hm
    by_cases hA52 : id = 0xa321
    · exact absurd (hA52 ▸ hid) (by decide)
    rw [if_neg hA52] at hm
    by_cases hA53 : id = 0xd000
    · exact absurd (hA53 ▸ hid) (by decide)
    rw [if_neg hA53] at hm
    by_cases hA54 : id = 0xd001
    · exact absurd (hA54 ▸ hid) (by decide)
    rw [if_neg hA54] at hm
    exact Option.noConfusion hm
  · intro m hm hlen
    unfold minKeyLen at hm
    by_cases hB0 : 0x1c00 + getub buf 0 = 0x13
    · exfalso
      have := getub_lt buf 0
      omega
    rw [if_neg hB0] at hm
    by_cases hB1 : 0x1c00 + getub buf 0 = 0x41
    · exfalso
      have := getub_lt buf 0
      omega
    rw [if_neg hB1] at hm
    by_cases hB2 : 0x1c00 + getub buf 0 = 0x42
    · exfalso
      have := getub_lt buf 0
      omega
    rw [if_neg hB2] at hm
    by_cases hB3 : 0x1c00 + getub buf 0 = 0x43
    · exfalso
      have := getub_lt buf 0
      omega
    rw [if_neg hB3] at hm
    by_cases hB4 : 0x1c00 + getub buf 0 = 0x45
    · exfalso
      have := getub_lt buf 0
      omega
    rw [if_neg hB4] at hm
    by_cases hB5 : 0x1c00 + getub buf 0 = 0x46
    · exfalso
      have := getub_lt buf 0
      omega
    rw [if_neg hB5] at hm
    by_cases hB6 : 0x1c00 + getub buf 0 = 0x47
    · exfalso
      have := getub_lt buf 0
      omega
    rw [if_neg hB6] at hm
    by_cases hB7 : 0x1c00 + getub buf 0 = 0x4a
    · exfalso
      have := getub_lt buf 0
      omega
    rw [if_neg hB7] at hm
    by_cases hB8 : 0x1c00 + getub buf 0 = 0x4b
    · exfalso
      have := getub_lt buf 0
      omega
    rw [if_neg hB8] at hm
    by_cases hB9 : 0x1c00 + getub buf 0 = 0x4c
    · exfalso
      have := getub_lt buf 0
      omega
    rw [if_neg hB9] at hm
    by_cases hB10 : 0x1c00 + getub buf 0 = 0x54
    · exfalso
      have := getub_lt buf 0
      omega
    rw [if_neg hB10] at hm
    by_cases hB11 : 0x1c00 + getub buf 0 = 0x55
    · exfalso
      have := getub_lt buf 0
      omega
    rw [if_neg hB11] at hm
    by_cases hB12 : 0x1c00 + getub buf 0 = 0x56
    · exfalso
      have := getub_lt buf 0
      omega
    rw [if_neg hB12] at hm
    by_cases hB13 : 0x1c00 + getub buf 0 = 0x57
    · exfalso
      have := getub_lt buf 0
      omega
    rw [if_neg hB13] at hm
    by_cases hB14 : 0x1c00 + getub buf 0 = 0x5a
    · exfalso
      have := getub_lt buf 0
      omega
    rw [if_neg hB14] at hm
    by_cases hB15 : 0x1c00 + getub buf 0 = 0x5c
    · exfalso
      have := getub_lt buf 0
      omega
    rw [if_neg hB15] at hm
    by_cases hB16 : 0x1c00 + getub buf 0 = 0x5d
    · exfalso
      have := getub_lt buf 0
      omega
    rw [if_neg hB16] at hm
    by_cases hB17 : 0x1c00 + getub buf 0 = 0x6c
    · exfalso
      have := getub_lt buf 0
      omega
    rw [if_neg hB17] at hm
    by_cases hB18 : 0x1c00 + getub buf 0 = 0x6d
    · exfalso
      have := getub_lt buf 0
      omega
    rw [if_neg hB18] at hm
    by_cases hB19 : 0x1c00 + getub buf 0 = 0x82
    · exfalso
      have := getub_lt buf 0
      omega
    rw [if_neg hB19] at hm
    by_cases hB20 : 0x1c00 + getub buf 0 = 0x83
    · exfalso
      have := getub_lt buf 0
      omega
    rw [if_neg hB20] at hm
    by_cases hB21 : 0x1c00 + getub buf 0 = 0x84
    · exfalso
      have := getub_lt buf 0
      omega
    rw [if_neg hB21] at hm
    by_cases hB22 : 0x1c00 + getub buf 0 = 0xbb
    · exfalso
      have := getub_lt buf 0
      omega
    rw [if_neg hB22] at hm
    by_cases hB23 : 0x1c00 + getub buf 0 = 0x1c81
    · rw [if_pos hB23] at hm
      injection hm with hm
      subst_vars
      have hsub : getub buf 0 = 0x81 := by omega
      simp [tsip_parse_input, decode_x1c, hsub, hlen, fixSky_schedTail]
    rw [if_neg hB23] at hm
    by_cases hB24 : 0x1c00 + getub buf 0 = 0x1c83
    · rw [if_pos hB24] at hm
      injection hm with hm
      subst_vars
      have hsub : getub buf 0 = 0x83 := by omega
      simp [tsip_parse_input, decode_x1c, hsub, hlen, fixSky_schedTail]
    rw [if_neg hB24] at hm
    by_cases hB25 : 0x1c00 + getub buf 0 = 0x8f15
    · exfalso
      have := getub_lt buf 0
      omega
    rw [if_neg hB25] at hm
    by_cases hB26 : 0x1c00 + getub buf 0 = 0x8f20
    · exfalso
      have := getub_lt buf 0
      omega
    rw [if_neg hB26] at hm
    by_cases hB27 : 0x1c00 + getub buf 0 = 0x8f23
    · exfalso
      have := getub_lt buf 0
      omega
    rw [if_neg hB27] at hm
    by_cases hB28 : 0x1c00 + getub buf 0 = 0x8f42
    · exfalso
      have := getub_lt buf 0
      omega
    rw [if_neg hB28] at hm
    by_cases hB29 : 0x1c00 + getub buf 0 = 0x8fa5
    · exfalso
      have := getub_lt buf 0
      omega
    rw [if_neg hB29] at hm
    by_cases hB30 : 0x1c00 + getub buf 0 = 0x8fa6
    · exfalso
      have := getub_lt buf 0
      omega
    rw [if_neg hB30] at hm
    by_cases hB31 : 0x1c00 + getub buf 0 = 0x8fa7
    · exfalso
      have := getub_lt buf 0
      omega
    rw [if_neg hB31] at hm
    by_cases hB32 : 0x1c00 + getub buf 0 = 0x8fa9
    · exfalso
      have := getub_lt buf 0
      omega
    rw [if_neg hB32] at hm
    by_cases hB33 : 0x1c00 + getub buf 0 = 0x8fab
    · exfalso
      have := getub_lt buf 0
      omega
    rw [if_neg hB33] at hm
    by_cases hB34 : 0x1c00 + getub buf 0 = 0x8fac
    · exfalso
      have := getub_lt buf 0
      omega
    rw [if_neg hB34] at hm
    by_cases hB35 : 0x1c00 + getub buf 0 = 0x9000
    · exfalso
      have := getub_lt buf 0
      omega
    rw [if_neg hB35] at hm
    by_cases hB36 : 0x1c00 + getub buf 0 = 0x9001
    · exfalso
      have := getub_lt buf 0
      omega
    rw [if_neg hB36] at hm
    by_cases hB37 : 0x1c00 + getub buf 0 = 0x9100
    · exfalso
      have := getub_lt buf 0
      omega
    rw [if_neg hB37] at hm
    by_cases hB38 : 0x1c00 + getub buf 0 = 0x9101
    · exfalso
      have := getub_lt buf 0
      omega
    rw [if_neg hB38] at hm
    by_cases hB39 : 0x1c00 + getub buf 0 = 0x9102
    · exfalso
      have := getub_lt buf 0
      omega
    rw [if_neg hB39] at hm
    by_cases hB40 : 0x1c00 + getub buf 0 = 0x9103
    · exfalso
      have := getub_lt buf 0
      omega
    rw [if_neg hB40] at hm
    by_cases hB41 : 0x1c00 + getub buf 0 = 0x9104
    · exfalso
      have := getub_lt buf 0
      omega
    rw [if_neg hB41] at hm
    by_cases hB42 : 0x1c00 + getub buf 0 = 0x9105
    · exfalso
      have := getub_lt buf 0
      omega
    rw [if_neg hB42] at hm
    by_cases hB43 : 0x1c00 + getub buf 0 = 0x9201
    · exfalso
      have := getub_lt buf 0
      omega
    rw [if_neg hB43] at hm
    by_cases hB44 : 0x1c00 + getub buf 0 = 0x9300
    · exfalso
      have := getub_lt buf 0
      omega
    rw [if_neg hB44] at hm
    by_cases hB45 : 0x1c00 + getub buf 0 = 0xa000
    · exfalso
      have := getub_lt buf 0
      omega
    rw [if_neg hB45] at hm
    by_cases hB46 : 0x1c00 + getub buf 0 = 0xa100
    · exfalso
      have := getub_lt buf 0
      omega
    rw [if_neg hB46] at hm
    by_cases hB47 : 0x1c00 + getub buf 0 = 0xa102
    · exfalso
      have := getub_lt buf 0
      omega
    rw [if_neg hB47] at hm
    by_cases hB48 : 0x1c00 + getub buf 0 = 0xa111
    · exfalso
      have := getub_lt buf 0
      omega
    rw [if_neg hB48] at hm
    by_cases hB49 : 0x1c00 + getub buf 0 = 0xa200
    · exfalso
      have := getub_lt buf 0
      omega
    rw [if_neg hB49] at hm
    by_cases hB50 : 0x1c00 + getub buf 0 = 0xa300
    · exfalso
      have := getub_lt buf 0
      omega
    rw [if_neg hB50] at hm
    by_cases hB51 : 0x1c00 + getub buf 0 = 0xa311
    · exfalso
      have := getub_lt buf 0
      omega
    rw [if_neg hB51] at hm
    by_cases hB52 : 0x1c00 + getub buf 0 = 0xa321
    · exfalso
      have := getub_lt buf 0
      omega
    rw [if_neg hB52] at hm
    by_cases hB53 : 0x1c00 + getub buf 0 = 0xd000
    · exfalso
      have := getub_lt buf 0
      omega
    rw [if_neg hB53] at hm
    by_cases hB54 : 0x1c00 + getub buf 0 = 0xd001
    · exfalso
      have := getub_lt buf 0
      omega
    rw [if_neg hB54] at hm
    exact Option.noConfusion hm
  · intro m hm hlen
    unfold minKeyLen at hm
    by_cases hB0 : 0x8f00 + getub buf 0 = 0x13
    · exfalso
      have := getub_lt buf 0
      omega
    rw [if_neg hB0] at hm
    by_cases hB1 : 0x8f00 + getub buf 0 = 0x41
    · exfalso
      have := getub_lt buf 0
      omega
    rw [if_neg hB1] at hm
    by_cases hB2 : 0x8f00 + getub buf 0 = 0x42
    · exfalso
      have := getub_lt buf 0
      omega
    rw [if_neg hB2] at hm
    by_cases hB3 : 0x8f00 + getub buf 0 = 0x43
    · exfalso
      have := getub_lt buf 0
      omega
    rw [if_neg hB3] at hm
    by_cases hB4 : 0x8f00 + getub buf 0 = 0x45
    · exfalso
      have := getub_lt buf 0
      omega
    rw [if_neg hB4] at hm
    by_cases hB5 : 0x8f00 + getub buf 0 = 0x46
    · exfalso
      have := getub_lt buf 0
      omega
    rw [if_neg hB5] at hm
    by_cases hB6 : 0x8f00 + getub buf 0 = 0x47
    · exfalso
      have := getub_lt buf 0
      omega
    rw [if_neg hB6] at hm
    by_cases hB7 : 0x8f00 + getub buf 0 = 0x4a
    · exfalso
      have := getub_lt buf 0
      omega
    rw [if_neg hB7] at hm
    by_cases hB8 : 0x8f00 + getub buf 0 = 0x4b
    · exfalso
      have := getub_lt buf 0
      omega
    rw [if_neg hB8] at hm
    by_cases hB9 : 0x8f00 + getub buf 0 = 0x4c
    · exfalso
      have := getub_lt buf 0
      omega
    rw [if_neg hB9] at hm
    by_cases hB10 : 0x8f00 + getub buf 0 = 0x54
    · exfalso
      have := getub_lt buf 0
      omega
    rw [if_neg hB10] at hm
    by_cases hB11 : 0x8f00 + getub buf 0 = 0x55
    · exfalso
      have := getub_lt buf 0
      omega
    rw [if_neg hB11] at hm
    by_cases hB12 : 0x8f00 + getub buf 0 = 0x56
    · exfalso
      have := getub_lt buf 0
      omega
    rw [if_neg hB12] at hm
    by_cases hB13 : 0x8f00 + getub buf 0 = 0x57
    · exfalso
      have := getub_lt buf 0
      omega
    rw [if_neg hB13] at hm
    by_cases hB14 : 0x8f00 + getub buf 0 = 0x5a
    · exfalso
      have := getub_lt buf 0
      omega
    rw [if_neg hB14] at hm
    by_cases hB15 : 0x8f00 + getub buf 0 = 0x5c
    · exfalso
      have := getub_lt buf 0
      omega
    rw [if_neg hB15] at hm
    by_cases hB16 : 0x8f00 + getub buf 0 = 0x5d
    · exfalso
      have := getub_lt buf 0
      omega
    rw [if_neg hB16] at hm
    by_cases hB17 : 0x8f00 + getub buf 0 = 0x6c
    · exfalso
      have := getub_lt buf 0
      omega
    rw [if_neg hB17] at hm
    by_cases hB18 : 0x8f00 + getub buf 0 = 0x6d
    · exfalso
      have := getub_lt buf 0
      omega
    rw [if_neg hB18] at hm
    by_cases hB19 : 0x8f00 + getub buf 0 = 0x82
    · exfalso
      have := getub_lt buf 0
      omega
    rw [if_neg hB19] at hm
    by_cases hB20 : 0x8f00 + getub buf 0 = 0x83
    · exfalso
      have := getub_lt buf 0
      omega
    rw [if_neg hB20] at hm
    by_cases hB21 : 0x8f00 + getub buf 0 = 0x84
    · exfalso
      have := getub_lt buf 0
      omega
    rw [if_neg hB21] at hm
    by_cases hB22 : 0x8f00 + getub buf 0 = 0xbb
    · exfalso
      have := getub_lt buf 0
      omega
    rw [if_neg hB22] at hm
    by_cases hB23 : 0x8f00 + getub buf 0 = 0x1c81
    · exfalso
      have := getub_lt buf 0
      omega
    rw [if_neg hB23] at hm
    by_cases hB24 : 0x8f00 + getub buf 0 = 0x1c83
    · exfalso
      have := getub_lt buf 0
      omega
    rw [if_neg hB24] at hm
    by_cases hB25 : 0x8f00 + getub buf 0 = 0x8f15
    · rw [if_pos hB25] at hm
      injection hm with hm
      subst_vars
      have hsub : getub buf 0 = 0x15 := by omega
      simp [tsip_parse_input, decode_x8f, hsub, hlen, fixSky_schedTail]
    rw [if_neg hB25] at hm
    by_cases hB26 : 0x8f00 + getub buf 0 = 0x8f20
    · rw [if_pos hB26] at hm
      injection hm with hm
      subst_vars
      have hsub : getub buf 0 = 0x20 := by omega
      have hb : buf.length ≠ 56 ∧ buf.length ≠ 64 := ⟨by omega, by omega⟩
      simp [tsip_parse_input, decode_x8f, hsub, hb, fixSky_schedTail]
    rw [if_neg hB26] at hm
    by_cases hB27 : 0x8f00 + getub buf 0 = 0x8f23
    · rw [if_pos hB27] at hm
      injection hm with hm
      subst_vars
      have hsub : getub buf 0 = 0x23 := by omega
      simp [tsip_parse_input, decode_x8f, hsub, hlen, fixSky_schedTail]
    rw [if_neg hB27] at hm
    by_cases hB28 : 0x8f00 + getub buf 0 = 0x8f42
    · rw [if_pos hB28] at hm
      injection hm with hm
      subst_vars
      have hsub : getub buf 0 = 0x42 := by omega
      simp [tsip_parse_input, decode_x8f, hsub, hlen, fixSky_schedTail]
    rw [if_neg hB28] at hm
    by_cases hB29 : 0x8f00 + getub buf 0 = 0x8fa5
    · rw [if_pos hB29] at hm
      injection hm with hm
      subst_vars
      have hsub : getub buf 0 = 0xa5 := by omega
      simp [tsip_parse_input, decode_x8f, hsub, hlen, fixSky_schedTail]
    rw [if_neg hB29] at hm
    by_cases hB30 : 0x8f00 + getub buf 0 = 0x8fa6
    · rw [if_pos hB30] at hm
      injection hm with hm
      subst_vars
      have hsub : getub buf 0 = 0xa6 := by omega
      simp [tsip_parse_input, decode_x8f, hsub, hlen, fixSky_schedTail]
    rw [if_neg hB30] at hm
    by_cases hB31 : 0x8f00 + getub buf 0 = 0x8fa7
    · rw [if_pos hB31] at hm
      injection hm with hm
      subst_vars
      have hsub : getub buf 0 = 0xa7 := by omega
      simp [tsip_parse_input, decode_x8f, hsub, hlen, fixSky_schedTail]
    rw [if_neg hB31] at hm
    by_cases hB32 : 0x8f00 + getub buf 0 = 0x8fa9
    · rw [if_pos hB32] at hm
      injection hm with hm
      subst_vars
      have hsub : getub buf 0 = 0xa9 := by omega
      simp [tsip_parse_input, decode_x8f, hsub, hlen, fixSky_schedTail]
    rw [if_neg hB32] at hm
    by_cases hB33 : 0x8f00 + getub buf 0 = 0x8fab
    · rw [if_pos hB33] at hm
      injection hm with hm
      subst_vars
      have hsub : getub buf 0 = 0xab := by omega
      simp [tsip_parse_input, decode_x8f, hsub, hlen, fixSky_schedTail]
    rw [if_neg hB33] at hm
    by_cases hB34 : 0x8f00 + getub buf 0 = 0x8fac
    · rw [if_pos hB34] at hm
      injection hm with hm
      subst_vars
      have hsub : getub buf 0 = 0xac := by omega
      simp [tsip_parse_input, decode_x8f, hsub, hlen, fixSky_schedTail]
    rw [if_neg hB34] at hm
    by_cases hB35 : 0x8f00 + getub buf 0 = 0x9000
    · exfalso
      have := getub_lt buf 0
      omega
    rw [if_neg hB35] at hm
    by_cases hB36 : 0x8f00 + getub buf 0 = 0x9001
    · exfalso
      have := getub_lt buf 0
      omega
    rw [if_neg hB36] at hm
    by_cases hB37 : 0x8f00 + getub buf 0 = 0x9100
    · exfalso
      have := getub_lt buf 0
      omega
    rw [if_neg hB37] at hm
    by_cases hB38 : 0x8f00 + getub buf 0 = 0x9101
    · exfalso
      have := getub_lt buf 0
      omega
    rw [if_neg hB38] at hm
    by_cases hB39 : 0x8f00 + getub buf 0 = 0x9102
    · exfalso
      have := getub_lt buf 0
      omega
    rw [if_neg hB39] at hm
    by_cases hB40 : 0x8f00 + getub buf 0 = 0x9103
    · exfalso
      have := getub_lt buf 0
      omega
    rw [if_neg hB40] at hm
    by_cases hB41 : 0x8f00 + getub buf 0 = 0x9104
    · exfalso
      have := getub_lt buf 0
      omega
    rw [if_neg hB41] at hm
    by_cases hB42 : 0x8f00 + getub buf 0 = 0x9105
    · exfalso
      have := getub_lt buf 0
      omega
    rw [if_neg hB42] at hm
    by_cases hB43 : 0x8f00 + getub buf 0 = 0x9201
    · exfalso
      have := getub_lt buf 0
      omega
    rw [if_neg hB43] at hm
    by_cases hB44 : 0x8f00 + getub buf 0 = 0x9300
    · exfalso
      have := getub_lt buf 0
      omega
    rw [if_neg hB44] at hm
    by_cases hB45 : 0x8f00 + getub buf 0 = 0xa000
    · exfalso
      have := getub_lt buf 0
      omega
    rw [if_neg hB45] at hm
    by_cases hB46 : 0x8f00 + getub buf 0 = 0xa100
    · exfalso
      have := getub_lt buf 0
      omega
    rw [if_neg hB46] at hm
    by_cases hB47 : 0x8f00 + getub buf 0 = 0xa102
    · exfalso
      have := getub_lt buf 0
      omega
    rw [if_neg hB47] at hm
    by_cases hB48 : 0x8f00 + getub buf 0 = 0xa111
    · exfalso
      have := getub_lt buf 0
      omega
    rw [if_neg hB48] at hm
    by_cases hB49 : 0x8f00 + getub buf 0 = 0xa200
    · exfalso
      have := getub_lt buf 0
      omega
    rw [if_neg hB49] at hm
    by_cases hB50 : 0x8f00 + getub buf 0 = 0xa300
    · exfalso
      have := getub_lt buf 0
      omega
    rw [if_neg hB50] at hm
    by_cases hB51 : 0x8f00 + getub buf 0 = 0xa311
    · exfalso
      have := getub_lt buf 0
      omega
    rw [if_neg hB51] at hm
    by_cases hB52 : 0x8f00 + getub buf 0 = 0xa321
    · exfalso
      have := getub_lt buf 0
      omega
    rw [if_neg hB52] at hm
    by_cases hB53 : 0x8f00 + getub buf 0 = 0xd000
    · exfalso
      have := getub_lt buf 0
      omega
    rw [if_neg hB53] at hm
    by_cases hB54 : 0x8f00 + getub buf 0 = 0xd001
    · exfalso
      have := getub_lt buf 0
      omega
    rw [if_neg hB54] at hm
    exact Option.noConfusion hm
  · intro m hge hm h4 hL hC hM hlen
    have hD : tsipv1_dispatch dec st id buf = (st, 0, true) := by
      unfold minKeyLen at hm
      by_cases hD0 : id * 256 + getub buf 0 = 0x13
      · exfalso
        omega
      rw [if_neg hD0] at hm
      by_cases hD1 : id * 256 + getub buf 0 = 0x41
      · exfalso
        omega
      rw [if_neg hD1] at hm
      by_cases hD2 : id * 256 + getub buf 0 = 0x42
      · exfalso
        omega
      rw [if_neg hD2] at hm
      by_cases hD3 : id * 256 + getub buf 0 = 0x43
      · exfalso
        omega
      rw [if_neg hD3] at hm
      by_cases hD4 : id * 256 + getub buf 0 = 0x45
      · exfalso
        omega
      rw [if_neg hD4] at hm
      by_cases hD5 : id * 256 + getub buf 0 = 0x46
      · exfalso
        omega
      rw [if_neg hD5] at hm
      by_cases hD6 : id * 256 + getub buf 0 = 0x47
      · exfalso
        omega
      rw [if_neg hD6] at hm
      by_cases hD7 : id * 256 + getub buf 0 = 0x4a
      · exfalso
        omega
      rw [if_neg hD7] at hm
      by_cases hD8 : id * 256 + getub buf 0 = 0x4b
      · exfalso
        omega
      rw [if_neg hD8] at hm
      by_cases hD9 : id * 256 + getub buf 0 = 0x4c
      · exfalso
        omega
      rw [if_neg hD9] at hm
      by_cases hD10 : id * 256 + getub buf 0 = 0x54
      · exfalso
        omega
      rw [if_neg hD10] at hm
      by_cases hD11 : id * 256 + getub buf 0 = 0x55
      · exfalso
        omega
      rw [if_neg hD11] at hm
      by_cases hD12 : id * 256 + getub buf 0 = 0x56
      · exfalso
        omega
      rw [if_neg hD12] at hm
      by_cases hD13 : id * 256 + getub buf 0 = 0x57
      · exfalso
        omega
      rw [if_neg hD13] at hm
      by_cases hD14 : id * 256 + getub buf 0 = 0x5a
      · exfalso
        omega
      rw [if_neg hD14] at hm
      by_cases hD15 : id * 256 + getub buf 0 = 0x5c
      · exfalso
        omega
      rw [if_neg hD15] at hm
      by_cases hD16 : id * 256 + getub buf 0 = 0x5d
      · exfalso
        omega
      rw [if_neg hD16] at hm
      by_cases hD17 : id * 256 + getub buf 0 = 0x6c
      · exfalso
        omega
      rw [if_neg hD17] at hm
      by_cases hD18 : id * 256 + getub buf 0 = 0x6d
      · exfalso
        omega
      rw [if_neg hD18] at hm
      by_cases hD19 : id * 256 + getub buf 0 = 0x82
      · exfalso
        omega
      rw [if_neg hD19] at hm
      by_cases hD20 : id * 256 + getub buf 0 = 0x83
      · exfalso
        omega
      rw [if_neg hD20] at hm
      by_cases hD21 : id * 256 + getub buf 0 = 0x84
      · exfalso
        omega
      rw [if_neg hD21] at hm
      by_cases hD22 : id * 256 + getub buf 0 = 0xbb
      · exfalso
        omega
      rw [if_neg hD22] at hm
      by_cases hD23 : id * 256 + getub buf 0 = 0x1c81
      · exfalso
        omega
      rw [if_neg hD23] at hm
      by_cases hD24 : id * 256 + getub buf 0 = 0x1c83
      · exfalso
        omega
      rw [if_neg hD24] at hm
      by_cases hD25 : id * 256 + getub buf 0 = 0x8f15
      · exfalso
        omega
      rw [if_neg hD25] at hm
      by_cases hD26 : id * 256 + getub buf 0 = 0x8f20
      · exfalso
        omega
      rw [if_neg hD26] at hm
      by_cases hD27 : id * 256 + getub buf 0 = 0x8f23
      · exfalso
        omega
      rw [if_neg hD27] at hm
      by_cases hD28 : id * 256 + getub buf 0 = 0x8f42
      · exfalso
        omega
      rw [if_neg hD28] at hm
      by_cases hD29 : id * 256 + getub buf 0 = 0x8fa5
      · exfalso
        omega
      rw [if_neg hD29] at hm
      by_cases hD30 : id * 256 + getub buf 0 = 0x8fa6
      · exfalso
        omega
      rw [if_neg hD30] at hm
      by_cases hD31 : id * 256 + getub buf 0 = 0x8fa7
      · exfalso
        omega
      rw [if_neg hD31] at hm
      by_cases hD32 : id * 256 + getub buf 0 = 0x8fa9
      · exfalso
        omega
      rw [if_neg hD32] at hm
      by_cases hD33 : id * 256 + getub buf 0 = 0x8fab
      · exfalso
        omega
      rw [if_neg hD33] at hm
      by_cases hD34 : id * 256 + getub buf 0 = 0x8fac
      · exfalso
        omega
      rw [if_neg hD34] at hm
      by_cases hD35 : id * 256 + getub buf 0 = 0x9000
      · rw [if_pos hD35] at hm
        injection hm with hm
        subst_vars
        have hid2 : id = 0x90 := by have := getub_lt buf 0; omega
        subst hid2
        have hsub : getub buf 0 = 0x0 := by omega
        simp [tsipv1_dispatch, tsipv1_case, hsub, hlen]
      rw [if_neg hD35] at hm
      by_cases hD36 : id * 256 + getub buf 0 = 0x9001
      · rw [if_pos hD36] at hm
        injection hm with hm
        subst_vars
        have hid2 : id = 0x90 := by have := getub_lt buf 0; omega
        subst hid2
        have hsub : getub buf 0 = 0x1 := by omega
        simp [tsipv1_dispatch, tsipv1_case, hsub, hlen]
      rw [if_neg hD36] at hm
      by_cases hD37 : id * 256 + getub buf 0 = 0x9100
      · rw [if_pos hD37] at hm
        injection hm with hm
        subst_vars
        have hid2 : id = 0x91 := by have := getub_lt buf 0; omega
        subst hid2
        have hsub : getub buf 0 = 0x0 := by omega
        simp [tsipv1_dispatch, tsipv1_case, hsub, hlen]
      rw [if_neg hD37] at hm
      by_cases hD38 : id * 256 + getub buf 0 = 0x9101
      · rw [if_pos hD38] at hm
        injection hm with hm
        subst_vars
        have hid2 : id = 0x91 := by have := getub_lt buf 0; omega
        subst hid2
        have hsub : getub buf 0 = 0x1 := by omega
        simp [tsipv1_dispatch, tsipv1_case, hsub, hlen]
      rw [if_neg hD38] at hm
      by_cases hD39 : id * 256 + getub buf 0 = 0x9102
      · rw [if_pos hD39] at hm
        injection hm with hm
        subst_vars
        have hid2 : id = 0x91 := by have := getub_lt buf 0; omega
        subst hid2
        have hsub : getub buf 0 = 0x2 := by omega
        simp [tsipv1_dispatch, tsipv1_case, hsub, hlen]
      rw [if_neg hD39] at hm
      by_cases hD40 : id * 256 + getub buf 0 = 0x9103
      · rw [if_pos hD40] at hm
        injection hm with hm
        subst_vars
        have hid2 : id = 0x91 := by have := getub_lt buf 0; omega
        subst hid2
        have hsub : getub buf 0 = 0x3 := by omega
        simp [tsipv1_dispatch, tsipv1_case, hsub, hlen]
      rw [if_neg hD40] at hm
      by_cases hD41 : id * 256 + getub buf 0 = 0x9104
      · rw [if_pos hD41] at hm
        injection hm with hm
        subst_vars
        have hid2 : id = 0x91 := by have := getub_lt buf 0; omega
        subst hid2
        have hsub : getub buf 0 = 0x4 := by omega
        simp [tsipv1_dispatch, tsipv1_case, hsub, hlen]
      rw [if_neg hD41] at hm
      by_cases hD42 : id * 256 + getub buf 0 = 0x9105
      · rw [if_pos hD42] at hm
        injection hm with hm
        subst_vars
        have hid2 : id = 0x91 := by have := getub_lt buf 0; omega
        subst hid2
        have hsub : getub buf 0 = 0x5 := by omega
        simp [tsipv1_dispatch, tsipv1_case, hsub, hlen]
      rw [if_neg hD42] at hm
      by_cases hD43 : id * 256 + getub buf 0 = 0x9201
      · rw [if_pos hD43] at hm
        injection hm with hm
        subst_vars
        have hid2 : id = 0x92 := by have := getub_lt buf 0; omega
        subst hid2
        have hsub : getub buf 0 = 0x1 := by omega
        simp [tsipv1_dispatch, tsipv1_case, hsub, hlen]
      rw [if_neg hD43] at hm
      by_cases hD44 : id * 256 + getub buf 0 = 0x9300
      · rw [if_pos hD44] at hm
        injection hm with hm
        subst_vars
        have hid2 : id = 0x93 := by have := getub_lt buf 0; omega
        subst hid2
        have hsub : getub buf 0 = 0x0 := by omega
        simp [tsipv1_dispatch, tsipv1_case, hsub, hlen]
      rw [if_neg hD44] at hm
      by_cases hD45 : id * 256 + getub buf 0 = 0xa000
      · rw [if_pos hD45] at hm
        injection hm with hm
        subst_vars
        have hid2 : id = 0xa0 := by have := getub_lt buf 0; omega
        subst hid2
        have hsub : getub buf 0 = 0x0 := by omega
        have h3 : getbeu16 buf 1 ≠ 3 := by omega
        have h8 : getbeu16 buf 1 ≠ 8 := by omega
        simp [tsipv1_dispatch, tsipv1_case, hsub, h3, h8]
      rw [if_neg hD45] at hm
      by_cases hD46 : id * 256 + getub buf 0 = 0xa100
      · rw [if_pos hD46] at hm
        injection hm with hm
        subst_vars
        have hid2 : id = 0xa1 := by have := getub_lt buf 0; omega
        subst hid2
        have hsub : getub buf 0 = 0x0 := by omega
        simp [tsipv1_dispatch, tsipv1_case, hsub, hlen]
      rw [if_neg hD46] at hm
      by_cases hD47 : id * 256 + getub buf 0 = 0xa102
      · rw [if_pos hD47] at hm
        injection hm with hm
        subst_vars
        have hid2 : id = 0xa1 := by have := getub_lt buf 0; omega
        subst hid2
        have hsub : getub buf 0 = 0x2 := by omega
        simp [tsipv1_dispatch, tsipv1_case, hsub, hlen]
      rw [if_neg hD47] at hm
      by_cases hD48 : id * 256 + getub buf 0 = 0xa111
      · rw [if_pos hD48] at hm
        injection hm with hm
        subst_vars
        have hid2 : id = 0xa1 := by have := getub_lt buf 0; omega
        subst hid2
        have hsub : getub buf 0 = 0x11 := by omega
        simp [tsipv1_dispatch, tsipv1_case, hsub, hlen]
      rw [if_neg hD48] at hm
      by_cases hD49 : id * 256 + getub buf 0 = 0xa200
      · rw [if_pos hD49] at hm
        injection hm with hm
        subst_vars
        have hid2 : id = 0xa2 := by have := getub_lt buf 0; omega
        subst hid2
        have hsub : getub buf 0 = 0x0 := by omega
        simp [tsipv1_dispatch, tsipv1_case, hsub, hlen]
      rw [if_neg hD49] at hm
      by_cases hD50 : id * 256 + getub buf 0 = 0xa300
      · rw [if_pos hD50] at hm
        injection hm with hm
        subst_vars
        have hid2 : id = 0xa3 := by have := getub_lt buf 0; omega
        subst hid2
        have hsub : getub buf 0 = 0x0 := by omega
        simp [tsipv1_dispatch, tsipv1_case, hsub, hlen]
      rw [if_neg hD50] at hm
      by_cases hD51 : id * 256 + getub buf 0 = 0xa311
      · rw [if_pos hD51] at hm
        injection hm with hm
        subst_vars
        have hid2 : id = 0xa3 := by have := getub_lt buf 0; omega
        subst hid2
        have hsub : getub buf 0 = 0x11 := by omega
        simp [tsipv1_dispatch, tsipv1_case, hsub, hlen]
      rw [if_neg hD51] at hm
      by_cases hD52 : id * 256 + getub buf 0 = 0xa321
      · rw [if_pos hD52] at hm
        injection hm with hm
        subst_vars
        have hid2 : id = 0xa3 := by have := getub_lt buf 0; omega
        subst hid2
        have hsub : getub buf 0 = 0x21 := by omega
        simp [tsipv1_dispatch, tsipv1_case, hsub, hlen]
      rw [if_neg hD52] at hm
      by_cases hD53 : id * 256 + getub buf 0 = 0xd000
      · rw [if_pos hD53] at hm
        injection hm with hm
        subst_vars
        have hid2 : id = 0xd0 := by have := getub_lt buf 0; omega
        subst hid2
        have hsub : getub buf 0 = 0x0 := by omega
        simp [tsipv1_dispatch, tsipv1_case, hsub, hlen]
      rw [if_neg hD53] at hm
      by_cases hD54 : id * 256 + getub buf 0 = 0xd001
      · rw [if_pos hD54] at hm
        injection hm with hm
        subst_vars
        have hid2 : id = 0xd0 := by have := getub_lt buf 0; omega
        subst hid2
        have hsub : getub buf 0 = 0x1 := by omega
        simp [tsipv1_dispatch, tsipv1_case, hsub, hlen]
      rw [if_neg hD54] at hm
      exact Option.noConfusion hm
    simp only [tsipv1_parse]
    rw [if_neg (by omega), if_neg (not_ne_iff.mpr hL), if_neg (not_ne_iff.mpr hC),
        if_neg (not_ne_iff.mpr hM), hD]
    exact ⟨rfl, rfl, rfl⟩

/-- Witness for C7: a zero-length payload for packet 0x41 (minimum 10)
is rejected with bad length 10, an empty mask, and untouched fix and
skyview state. -/
theorem dispatch_length_guards_witness :
    (tsip_parse_input dec0 sess0 0x41 []).mask = 0 ∧
    (tsip_parse_input dec0 sess0 0x41 []).badLen ≠ 0 ∧
    fixSky (tsip_parse_input dec0 sess0 0x41 []).sess = fixSky sess0 :=
  (dispatch_length_guards dec0 sess0 0x41 []).1 (by decide) 10 (by decide) (by decide)

/-- Counterexample for C7: packet 0x6c with an 18-byte payload whose
count byte is 1 fails its content-dependent length check `18 + count >
len` (bad length 19 is reported), yet the decoder has already stored the
PDOP from bytes 1..4 into the session and returns a non-empty mask with
DOP_SET, contradicting "rejected ... without touching the session state
or reporting data". -/
theorem x6c_dop_leak_counterexample :
    (tsip_parse_input dec0 sess0 0x6c x6cBuf).badLen = 19 ∧
    (tsip_parse_input dec0 sess0 0x6c x6cBuf).mask ≠ 0 ∧
    (tsip_parse_input dec0 sess0 0x6c x6cBuf).sess.dop_pdop ≠ sess0.dop_pdop := by
  have hc : getub x6cBuf 17 = 1 := by decide
  have hd : decode_x6c { sess0 with last_6d := 0 } x6cBuf 18 =
      ({ sess0 with last_6d := 0, dop_pdop := 1 }, DOP_SET, 19) := by
    simp [decode_x6c, x6c_f1, x6c_f5, x6c_f9, x6c_f13, IN_dop_one, IN_dop_zero,
          hc, F32.toQ]
  have hmain : tsip_parse_input dec0 sess0 0x6c x6cBuf =
      ⟨schedTail (decode_x6c { sess0 with last_6d := 0 } x6cBuf 18).1 0,
       (decode_x6c { sess0 with last_6d := 0 } x6cBuf 18).2.1,
       (decode_x6c { sess0 with last_6d := 0 } x6cBuf 18).2.2⟩ := rfl
  rw [hd] at hmain
  rw [hmain]
  refine ⟨rfl, by decide, ?_⟩
  show (1 : ℚ) ≠ 0
  norm_num

end Tsip
